import Mathlib

/-!
Verification of the BookLibrary API validation / service layer.

Strings from the Python source are modelled as lists of characters
(`PyStr`); optional / possibly-absent dictionary entries are modelled with
`Option` (an outer `Option` for key presence, an inner `Option` for a
present Python `None` where the distinction is observable); timestamps are
modelled as integers supplied by the caller (`today` for the current year,
`now` for the current instant).  The database session is a pair of states:
the committed state and the pending (session-visible, uncommitted) state;
`commit` copies pending into committed, `rollback` copies committed into
pending.
-/

abbrev PyStr := List Char

/-- Python `str.strip()`: remove leading and trailing whitespace. -/
def pyStrip (s : PyStr) : PyStr :=
  ((s.dropWhile Char.isWhitespace).reverse.dropWhile Char.isWhitespace).reverse

/-- Python `str.isdigit()` (ASCII model): non-empty and all digit characters. -/
def pyIsDigit (s : PyStr) : Bool :=
  !s.isEmpty && s.all Char.isDigit

/-- Python `str.capitalize()`: first character upper-cased, the rest lower-cased. -/
def pyCapitalize : PyStr → PyStr
  | [] => []
  | c :: rest => c.toUpper :: rest.map Char.toLower

/-- Decimal rendering of a natural number, as in Python `str(n)`. -/
def natStr (n : Nat) : PyStr := (Nat.repr n).data

/-- Decimal rendering of an integer, as in Python `str(i)`. -/
def intStr (i : Int) : PyStr := (Int.repr i).data

/-- A scalar value that may arrive as an int or as a string (query parameters). -/
inductive PyVal where
  | int (n : Int)
  | str (s : PyStr)
deriving DecidableEq, Repr

/-- Tail of Python's integer-literal grammar: `("_"? digit)*`. -/
def digitsTail : List Char → Bool
  | [] => true
  | '_' :: c :: rest => c.isDigit && digitsTail rest
  | '_' :: [] => false
  | c :: rest => c.isDigit && digitsTail rest

/-- Python integer-literal body: `digit ("_"? digit)*`. -/
def digitsBody : List Char → Bool
  | [] => false
  | c :: rest => c.isDigit && digitsTail rest

/-- Numeric value of a digit string, skipping underscores. -/
def digitsVal (l : List Char) : Nat :=
  l.foldl (fun acc c => if c == '_' then acc else acc * 10 + (c.toNat - '0'.toNat)) 0

/-- Python `int(s)` on a string: strip whitespace, optional sign, digits with
single underscores between digit groups; `none` when it raises `ValueError`. -/
def pyIntOfStr (s : PyStr) : Option Int :=
  let t := pyStrip s
  match t with
  | '+' :: r => if digitsBody r then some (digitsVal r) else none
  | '-' :: r => if digitsBody r then some (-(digitsVal r : Int)) else none
  | r => if digitsBody r then some (digitsVal r) else none

/-- Python `int(x)` on an int-or-string value. -/
def pyToInt : PyVal → Option Int
  | .int n => some n
  | .str s => pyIntOfStr s

/-- `exceptions.ValidationError`: a message and an optional offending field. -/
structure VError where
  message : PyStr
  field : Option PyStr
deriving DecidableEq, Repr

/-- Python `str(x)` applied to an optional string (a present `None` renders as `"None"`). -/
def pyStrRepr : Option PyStr → PyStr
  | none => "None".data
  | some s => s

namespace BaseValidator

/-- `BaseValidator.validate_string_length`: the minimum check measures the
length of the stripped value, the maximum check measures the raw length. -/
def validate_string_length (value : Option PyStr) (field : PyStr)
    (min_length max_length : Option Nat) : Except VError Unit :=
  match value with
  | none => .ok ()
  | some v =>
    let value_length := (pyStrip v).length
    -- `if min_length is not None and value_length < min_length`
    if min_length.any (fun m => value_length < m) then
      .error ⟨pyCapitalize field ++ " must be at least ".data ++
              natStr (min_length.getD 0) ++ " character(s) long".data, some field⟩
    -- `if max_length is not None and len(value) > max_length`
    else if max_length.any (fun m => v.length > m) then
      .error ⟨pyCapitalize field ++ " must be ".data ++
              natStr (max_length.getD 0) ++ " characters or less".data, some field⟩
    else .ok ()

/-- `BaseValidator.validate_not_empty`: `if not value or not value.strip()`. -/
def validate_not_empty (value : Option PyStr) (field : PyStr) : Except VError Unit :=
  match value with
  | none =>
    .error ⟨pyCapitalize field ++ " cannot be empty".data, some field⟩
  | some v =>
    if v.isEmpty || (pyStrip v).isEmpty then
      .error ⟨pyCapitalize field ++ " cannot be empty".data, some field⟩
    else .ok ()

/-- `BaseValidator.validate_not_only_digits`: `if value and value.strip().isdigit()`. -/
def validate_not_only_digits (value : Option PyStr) (field : PyStr) : Except VError Unit :=
  match value with
  | none => .ok ()
  | some v =>
    if !v.isEmpty && pyIsDigit (pyStrip v) then
      .error ⟨pyCapitalize field ++ " cannot contain only numbers".data, some field⟩
    else .ok ()

/-- `BaseValidator.validate_integer_range`: `int(value)` then bound checks. -/
def validate_integer_range (value : Option PyVal) (field : PyStr)
    (min_value max_value : Option Int) : Except VError Unit :=
  match value with
  | none => .ok ()
  | some v =>
    match pyToInt v with
    | none => .error ⟨pyCapitalize field ++ " must be a valid number".data, some field⟩
    | some n =>
      if min_value.any (fun m => n < m) then
        .error ⟨pyCapitalize field ++ " must be at least ".data ++
                intStr (min_value.getD 0), some field⟩
      else if max_value.any (fun m => n > m) then
        .error ⟨pyCapitalize field ++ " must be at most ".data ++
                intStr (max_value.getD 0), some field⟩
      else .ok ()

/-- `BaseValidator.validate_no_duplicates`: `if value and len(value) != len(set(value))`. -/
def validate_no_duplicates (value : Option (List Int)) (field : PyStr) : Except VError Unit :=
  match value with
  | none => .ok ()
  | some l =>
    if !l.isEmpty && l.length ≠ l.dedup.length then
      .error ⟨"Duplicate ".data ++ field ++ " are not allowed".data, some field⟩
    else .ok ()

/-- `BaseValidator.validate_required_field` for a string-valued entry:
fails when the key is absent, the value is `None`, or the value is `''`. -/
def validate_required_str (v : Option (Option PyStr)) (field display : PyStr) :
    Except VError Unit :=
  if (match v with
      | none => true
      | some none => true
      | some (some s) => s.isEmpty) then
    .error ⟨"Missing required field: ".data ++ display, some field⟩
  else .ok ()

/-- `BaseValidator.validate_required_field` for an int-valued entry. -/
def validate_required_int (v : Option Int) (field display : PyStr) : Except VError Unit :=
  if v.isNone then
    .error ⟨"Missing required field: ".data ++ display, some field⟩
  else .ok ()

end BaseValidator

/-- Input record for a book operation.  The outer `Option` is key presence in
the request dictionary; for `description`, `pages` and `category_ids` the
inner `Option` is a present JSON `null`, which the source treats differently
from an absent key.  `year` and `author_id` are modelled as present integers
or absent: a present `null` in those positions makes the source raise an
untyped `TypeError` (a crash outside the domain-error model). -/
structure BookInput where
  title : Option (Option PyStr) := none
  isbn : Option (Option PyStr) := none
  year : Option Int := none
  author_id : Option Int := none
  description : Option (Option PyStr) := none
  pages : Option (Option Int) := none
  category_ids : Option (Option (List Int)) := none
deriving DecidableEq, Repr

namespace BookValidator

/-- `BookValidator.validate_title`. -/
def validate_title (title : Option PyStr) : Except VError Unit := do
  BaseValidator.validate_not_empty title "title".data
  BaseValidator.validate_string_length title "title".data (some 1) (some 300)

/-- The ISBN normal form: the input with all hyphens and spaces removed
(`str(isbn).replace('-', '').replace(' ', '')`). -/
def isbnClean (s : PyStr) : PyStr :=
  s.filter (fun c => !(c == '-' || c == ' '))

/-- `BookValidator.validate_isbn`. -/
def validate_isbn (isbn : Option PyStr) : Except VError Unit :=
  let clean := isbnClean (pyStrRepr isbn)
  if !pyIsDigit clean then
    .error ⟨"ISBN must contain only digits (hyphens and spaces are allowed)".data,
            some "isbn".data⟩
  else if clean.length ≠ 10 ∧ clean.length ≠ 13 then
    .error ⟨"ISBN must be 10 or 13 digits".data, some "isbn".data⟩
  else .ok ()

/-- `BookValidator.validate_year` (`today` is `datetime.now().year`). -/
def validate_year (year : Int) (today : Int) : Except VError Unit :=
  BaseValidator.validate_integer_range (some (.int year)) "year".data (some 1000) (some today)

/-- `BookValidator.validate_pages`. -/
def validate_pages (pages : Option Int) : Except VError Unit :=
  match pages with
  | none => .ok ()
  | some p =>
    BaseValidator.validate_integer_range (some (.int p)) "pages".data (some 1) (some 50000)

/-- `BookValidator.validate_description`. -/
def validate_description (description : Option PyStr) : Except VError Unit :=
  match description with
  | none => .ok ()
  | some d =>
    BaseValidator.validate_string_length (some d) "description".data none (some 5000)

/-- `BookValidator.validate_category_ids` (the list-type check always passes
for a typed list of integers). -/
def validate_category_ids (category_ids : Option (List Int)) : Except VError Unit :=
  match category_ids with
  | none => .ok ()
  | some l => do
    BaseValidator.validate_no_duplicates (some l) "category IDs".data
    if l.length > 10 then
      throw ⟨"A book can have a maximum of 10 categories".data, some "category_ids".data⟩
    else pure ()

/-- `BookValidator.validate_required_fields`: title, isbn, year, author_id. -/
def validate_required_fields (d : BookInput) : Except VError Unit := do
  BaseValidator.validate_required_str d.title "title".data "title".data
  BaseValidator.validate_required_str d.isbn "isbn".data "isbn".data
  BaseValidator.validate_required_int d.year "year".data "year".data
  BaseValidator.validate_required_int d.author_id "author_id".data "author_id".data

/-- `BookValidator.validate_book_data`: required fields (create mode only),
then each present field in the source's order. -/
def validate_book_data (d : BookInput) (is_update : Bool) (today : Int) :
    Except VError Unit := do
  if !is_update then validate_required_fields d else pure ()
  match d.title with | some t => validate_title t | none => pure ()
  match d.isbn with | some i => validate_isbn i | none => pure ()
  match d.year with | some y => validate_year y today | none => pure ()
  match d.pages with | some p => validate_pages p | none => pure ()
  match d.description with | some s => validate_description s | none => pure ()
  match d.category_ids with | some c => validate_category_ids c | none => pure ()

end BookValidator

/-- Input record for an author operation. -/
structure AuthorInput where
  name : Option (Option PyStr) := none
  bio : Option (Option PyStr) := none
  country : Option (Option PyStr) := none
deriving DecidableEq, Repr

namespace AuthorValidator

/-- `AuthorValidator.validate_name`. -/
def validate_name (name : Option PyStr) : Except VError Unit := do
  BaseValidator.validate_not_empty name "author name".data
  BaseValidator.validate_string_length name "author name".data (some 2) (some 200)
  BaseValidator.validate_not_only_digits name "author name".data

/-- `AuthorValidator.validate_bio`. -/
def validate_bio (bio : Option PyStr) : Except VError Unit :=
  match bio with
  | none => .ok ()
  | some b => BaseValidator.validate_string_length (some b) "biography".data none (some 2000)

/-- `AuthorValidator.validate_country`. -/
def validate_country (country : Option PyStr) : Except VError Unit :=
  match country with
  | none => .ok ()
  | some c => do
    BaseValidator.validate_string_length (some c) "country name".data none (some 100)
    BaseValidator.validate_not_only_digits (some c) "country name".data

/-- `AuthorValidator.validate_author_data`. -/
def validate_author_data (d : AuthorInput) (is_update : Bool) : Except VError Unit := do
  if !is_update then
    BaseValidator.validate_required_str d.name "name".data "author name".data
  else pure ()
  match d.name with | some n => validate_name n | none => pure ()
  match d.bio with | some b => validate_bio b | none => pure ()
  match d.country with | some c => validate_country c | none => pure ()

end AuthorValidator

/-- Input record for a category operation. -/
structure CategoryInput where
  name : Option (Option PyStr) := none
  description : Option (Option PyStr) := none
deriving DecidableEq, Repr

namespace CategoryValidator

/-- `CategoryValidator.validate_name`. -/
def validate_name (name : Option PyStr) : Except VError Unit := do
  BaseValidator.validate_not_empty name "category name".data
  BaseValidator.validate_string_length name "category name".data (some 2) (some 100)
  BaseValidator.validate_not_only_digits name "category name".data

/-- `CategoryValidator.validate_description`. -/
def validate_description (description : Option PyStr) : Except VError Unit :=
  match description with
  | none => .ok ()
  | some d =>
    BaseValidator.validate_string_length (some d) "category description".data none (some 500)

/-- `CategoryValidator.validate_category_data`. -/
def validate_category_data (d : CategoryInput) (is_update : Bool) : Except VError Unit := do
  if !is_update then
    BaseValidator.validate_required_str d.name "name".data "category name".data
  else pure ()
  match d.name with | some n => validate_name n | none => pure ()
  match d.description with | some s => validate_description s | none => pure ()

end CategoryValidator

namespace PaginationValidator

/-- `PaginationValidator.validate_pagination`: apply defaults, validate both
bounds, return the parsed pair.  The final `int(...)` conversions are modelled
with `getD 0`, which is only reached after `validate_integer_range` has
already certified that the conversion succeeds. -/
def validate_pagination (page per_page : Option PyVal) : Except VError (Int × Int) := do
  let page := page.getD (.int 1)
  let per_page := per_page.getD (.int 10)
  BaseValidator.validate_integer_range (some page) "page".data (some 1) none
  BaseValidator.validate_integer_range (some per_page) "per_page".data (some 1) (some 100)
  return ((pyToInt page).getD 0, (pyToInt per_page).getD 0)

end PaginationValidator

/-- `models.Book` (timestamps as integers). -/
structure Book where
  id : Int
  title : PyStr
  isbn : PyStr
  year : Int
  description : Option PyStr
  pages : Option Int
  author_id : Int
  created_at : Int
  updated_at : Int
deriving DecidableEq, Repr

/-- `models.Author`. -/
structure Author where
  id : Int
  name : PyStr
  bio : Option PyStr
  country : Option PyStr
  created_at : Int
  updated_at : Int
deriving DecidableEq, Repr

/-- `models.Category`. -/
structure Category where
  id : Int
  name : PyStr
  description : Option PyStr
  created_at : Int
deriving DecidableEq, Repr

/-- The relational state: the three tables and the `book_categories`
association rows `(book_id, category_id)`. -/
structure DBState where
  books : List Book
  authors : List Author
  categories : List Category
  book_categories : List (Int × Int)
deriving DecidableEq, Repr

/-- The SQLAlchemy session: the committed database state, and the pending
state the session observes (committed state plus uncommitted mutations).
`commit` copies pending into committed; `rollback` copies committed back. -/
structure Session where
  committed : DBState
  pending : DBState
deriving DecidableEq, Repr

/-- The domain-error kinds of `exceptions.py`. -/
inductive LibError where
  | validation (e : VError)
  | bookNotFound (id : Option Int)
  | authorNotFound (id : Option Int)
  | categoryNotFound (id : Option Int)
  | duplicateIsbn (isbn : PyStr)
  | duplicateCategory (name : PyStr)
  | database (msg : PyStr)
deriving DecidableEq, Repr

/-- Replace the book with the same id (an in-place ORM attribute write). -/
def setBook (db : DBState) (b : Book) : DBState :=
  { db with books := db.books.map (fun x => if x.id == b.id then b else x) }

/-- `book.categories = []`: drop every association row of the book. -/
def clearBookCats (db : DBState) (book_id : Int) : DBState :=
  { db with book_categories := db.book_categories.filter (fun p => p.1 ≠ book_id) }

/-- Autoincrement primary key for a new book row. -/
def nextBookId (db : DBState) : Int :=
  1 + db.books.foldr (fun b m => max b.id m) 0

/-- `data.get(key, '').strip() if data.get(key) else None`: a Python-truthy
present string is stripped, anything else becomes `NULL`. -/
def pyOptStr (v : Option (Option PyStr)) : Option PyStr :=
  match v with
  | some (some s) => if s.isEmpty then none else some (pyStrip s)
  | _ => none

/-- `int(data['pages']) if data.get('pages') else None`: `0` and `null` are
Python-falsy and become `NULL`. -/
def pyOptPages (v : Option (Option Int)) : Option Int :=
  match v with
  | some (some n) => if n == 0 then none else some n
  | _ => none

namespace BookService

/-- `db.session.get(Book, book_id)` through the session. -/
def get_book (db : DBState) (book_id : Int) : Option Book :=
  db.books.find? (fun b => b.id == book_id)

/-- `BookService._verify_author_exists`. -/
def verify_author_exists (db : DBState) (author_id : Int) : Except LibError Unit :=
  match db.authors.find? (fun a => a.id == author_id) with
  | none => .error (.authorNotFound (some author_id))
  | some _ => .ok ()

/-- `BookService._check_duplicate_isbn`: exact match on the raw ISBN string;
the exclusion filter is guarded by Python truthiness of `exclude_book_id`. -/
def check_duplicate_isbn (db : DBState) (isbn : PyStr) (exclude_book_id : Option Int) :
    Except LibError Unit :=
  let q := db.books.filter (fun b => b.isbn == isbn)
  let q : List Book := match exclude_book_id with
    | some eid => if eid ≠ 0 then q.filter (fun b => b.id ≠ eid) else q
    | none => q
  if q.isEmpty then .ok () else .error (.duplicateIsbn isbn)

/-- The requested ids minus the found ids (`requested_ids - found_ids`; the
Python set difference is modelled in first-occurrence order). -/
def missing_category_ids (db : DBState) (category_ids : List Int) : List Int :=
  category_ids.dedup.filter (fun cid => !(db.categories.any (fun c => c.id == cid)))

/-- `', '.join(...)`. -/
def joinComma : List PyStr → PyStr
  | [] => []
  | [x] => x
  | x :: xs => x ++ ", ".data ++ joinComma xs

/-- The `"Category IDs not found: ..."` message. -/
def catNotFoundMsg (missing : List Int) : PyStr :=
  "Category IDs not found: ".data ++ joinComma (missing.map intStr)

/-- `BookService._add_categories_to_book`: either the ids of the found
categories (in table order) to associate, or the validation failure listing
the missing ids. -/
def add_categories_to_book (db : DBState) (category_ids : List Int) :
    Except LibError (List Int) :=
  let cats := db.categories.filter (fun c => category_ids.contains c.id)
  let missing := missing_category_ids db category_ids
  if !missing.isEmpty then
    .error (.validation ⟨catNotFoundMsg missing, some "category_ids".data⟩)
  else .ok (cats.map (fun c => c.id))

/-- `BookService._create_book_object` plus the id and timestamps the
database assigns at insert time. -/
def create_book_object (db : DBState) (d : BookInput) (now : Int) : Book :=
  { id := nextBookId db
    title := pyStrip ((d.title.getD none).getD [])
    isbn := (d.isbn.getD none).getD []
    year := d.year.getD 0
    description := pyOptStr d.description
    pages := pyOptPages d.pages
    author_id := d.author_id.getD 0
    created_at := now
    updated_at := now }

/-- `BookService.create_book`.  In this single-threaded model the final
commit cannot hit an `IntegrityError` (the duplicate pre-check ran in the
same session view), so the two `except` clauses of the source are dead. -/
def create_book (s : Session) (d : BookInput) (today now : Int) :
    Session × Except LibError Book :=
  match BookValidator.validate_book_data d false today with
  | .error e => (s, .error (.validation e))
  | .ok _ =>
    match d.author_id with
    | none => (s, .error (.authorNotFound none))  -- unreachable: required-field check passed
    | some aid =>
      match verify_author_exists s.pending aid with
      | .error e => (s, .error e)
      | .ok _ =>
        let isbn := (d.isbn.getD none).getD []
        match check_duplicate_isbn s.pending isbn none with
        | .error e => (s, .error e)
        | .ok _ =>
          let book := create_book_object s.pending d now
          let finish : List Int → Session × Except LibError Book := fun cids =>
            let db' := { s.pending with
              books := s.pending.books ++ [book],
              book_categories :=
                s.pending.book_categories ++ cids.map (fun c => (book.id, c)) }
            (⟨db', db'⟩, .ok book)
          -- `if 'category_ids' in data and data['category_ids']:`
          match d.category_ids with
          | some (some l) =>
            if l.isEmpty then finish []
            else
              match add_categories_to_book s.pending l with
              -- the ValidationError escapes before `db.session.add(book)`:
              -- the session is untouched
              | .error e => (s, .error e)
              | .ok cids => finish cids
          | _ => finish []

/-- Whether any scalar column of the book row is assigned by the update
(these assignments mark the row dirty, so the `onupdate` timestamp fires). -/
def scalarTouched (d : BookInput) : Bool :=
  d.title.isSome || d.isbn.isSome || d.year.isSome || d.description.isSome ||
  d.pages.isSome || d.author_id.isSome

/-- `if 'year' in data: book.year = int(data['year'])`. -/
def year_step (b : Book) (d : BookInput) : Book :=
  match d.year with
  | some y => { b with year := y }
  | none => b

/-- `if 'description' in data: book.description = data['description'].strip()
if data['description'] else None`. -/
def description_step (b : Book) (d : BookInput) : Book :=
  match d.description with
  | some dv => { b with description :=
      match dv with
      | some sv => if sv.isEmpty then none else some (pyStrip sv)
      | none => none }
  | none => b

/-- `if 'pages' in data: book.pages = int(data['pages']) if data['pages']
else None`. -/
def pages_step (b : Book) (d : BookInput) : Book :=
  match d.pages with
  | some pv => { b with pages :=
      match pv with
      | some n => if n == 0 then none else some n
      | none => none }
  | none => b

/-- `if 'title' in data: book.title = data['title'].strip()`. -/
def title_step (b : Book) (d : BookInput) : Book :=
  match d.title with
  | some t => { b with title := pyStrip (t.getD []) }
  | none => b

/-- The year / description / pages / author_id tail of
`_update_book_fields`: plain assignments, then the author-existence check
interleaved exactly as in the source.  A raised error carries the session
state at raise time. -/
def update_book_fields_rest (db : DBState) (b : Book) (d : BookInput) :
    Except (DBState × LibError) (DBState × Book) :=
  let b5 := pages_step (description_step (year_step b d) d) d
  let db5 := setBook db b5
  match d.author_id with
  | some aid =>
    match verify_author_exists db5 aid with
    | .error e => .error (db5, e)
    | .ok _ =>
      let b6 := { b5 with author_id := aid }
      .ok (setBook db5 b6, b6)
  | none => .ok (db5, b5)

/-- `BookService._update_book_fields`: field-by-field assignment on the live
session object, interleaved with the duplicate-ISBN and author-existence
checks exactly as in the source.  A raised check error carries the session
state at raise time (the assignments made so far are still pending). -/
def update_book_fields (db : DBState) (book : Book) (d : BookInput) :
    Except (DBState × LibError) (DBState × Book) :=
  let b1 := title_step book d
  let db1 := setBook db b1
  -- `if 'isbn' in data: if data['isbn'] != book.isbn: _check_duplicate_isbn(...)`
  match d.isbn with
  | some iv =>
    let i := iv.getD []
    if i ≠ b1.isbn then
      match check_duplicate_isbn db1 i (some book.id) with
      | .error e => .error (db1, e)
      | .ok _ => update_book_fields_rest db1 { b1 with isbn := i } d
    else update_book_fields_rest db1 { b1 with isbn := i } d
  | none => update_book_fields_rest db1 b1 d

/-- `BookService.update_book`.  Only `IntegrityError` / `SQLAlchemyError`
are caught by the source's `except` clauses; domain errors raised inside the
`try` block propagate without a rollback, so the session keeps the
mutations applied before the raise.  In this single-threaded model the final
commit itself cannot fail. -/
def update_book (s : Session) (book_id : Int) (d : BookInput) (today now : Int) :
    Session × Except LibError Book :=
  match BookValidator.validate_book_data d true today with
  | .error e => (s, .error (.validation e))
  | .ok _ =>
    match get_book s.pending book_id with
    | none => (s, .error (.bookNotFound (some book_id)))
    | some book =>
      match update_book_fields s.pending book d with
      | .error (db', e) => (⟨s.committed, db'⟩, .error e)
      | .ok (db1, b) =>
        -- commit: the dirty row (if any) gets its `onupdate` timestamp
        let commitWith : DBState → Session × Except LibError Book := fun dbX =>
          let bf := if scalarTouched d then { b with updated_at := now } else b
          let dbF := setBook dbX bf
          (⟨dbF, dbF⟩, .ok bf)
        match d.category_ids with
        | none => commitWith db1
        | some inner =>
          -- `book.categories = []` then, if truthy, re-add
          let dbC := clearBookCats db1 book_id
          match inner with
          | some l =>
            if l.isEmpty then commitWith dbC
            else
              match add_categories_to_book dbC l with
              -- the ValidationError escapes with no rollback: the cleared
              -- associations and the earlier field assignments stay pending
              | .error e => (⟨s.committed, dbC⟩, .error e)
              | .ok cids =>
                commitWith { dbC with book_categories :=
                  dbC.book_categories ++ cids.map (fun c => (book_id, c)) }
          | none => commitWith dbC

end BookService

namespace AuthorService

/-- `db.session.get(Author, author_id)` through the session. -/
def get_author (db : DBState) (author_id : Int) : Option Author :=
  db.authors.find? (fun a => a.id == author_id)

/-- The message of the cascade-guard validation error. -/
def cannotDeleteMsg (book_count : Nat) : PyStr :=
  "Cannot delete author with existing books. Delete ".data ++
  natStr book_count ++ " book(s) first.".data

/-- `AuthorService.delete_author`: load or fail, count owned books, guard,
then `safe_delete` (delete + commit). -/
def delete_author (s : Session) (author_id : Int) :
    Session × Except LibError Author :=
  match get_author s.pending author_id with
  | none => (s, .error (.authorNotFound (some author_id)))
  | some author =>
    let book_count := (s.pending.books.filter (fun b => b.author_id == author_id)).length
    if book_count > 0 then
      (s, .error (.validation ⟨cannotDeleteMsg book_count, none⟩))
    else
      let db' := { s.pending with
        authors := s.pending.authors.filter (fun a => a.id ≠ author_id) }
      (⟨db', db'⟩, .ok author)

end AuthorService

/-- SQL `LIKE` pattern matching: `%` matches any sequence, `_` any single
character, anything else itself. -/
def likeMatch : PyStr → PyStr → Bool
  | [], s => s.isEmpty
  | c :: p, s =>
    if c = '%' then
      likeMatch p s || (match s with
        | [] => false
        | _ :: s' => likeMatch (c :: p) s')
    else
      match s with
      | [] => false
      | d :: s' => if c = '_' then likeMatch p s' else (c == d && likeMatch p s')
termination_by p s => (p.length, s.length)

/-- ASCII lower-casing of a string (SQL `lower`). -/
def lowerStr (s : PyStr) : PyStr := s.map Char.toLower

/-- `column.ilike(pattern)`: case-insensitive `LIKE`. -/
def ilike (column pattern : PyStr) : Bool :=
  likeMatch (lowerStr pattern) (lowerStr column)

namespace BookService

/-- `if search: query.join(Author).filter(or_(Book.title.ilike(t),
Author.name.ilike(t)))`: the inner join is modelled by the existential row
lookup of `List.any`; the guard is Python truthiness of the string. -/
def searchFilter (db : DBState) (search : Option PyStr) (q : List Book) : List Book :=
  match search with
  | some s =>
    if s.isEmpty then q
    else q.filter (fun b => db.authors.any (fun a =>
      a.id == b.author_id &&
      (ilike b.title ('%' :: (s ++ ['%'])) || ilike a.name ('%' :: (s ++ ['%'])))))
  | none => q

/-- `if category: query.join(Book.categories).filter(Category.name.ilike(t))`. -/
def categoryFilter (db : DBState) (category : Option PyStr) (q : List Book) : List Book :=
  match category with
  | some c =>
    if c.isEmpty then q
    else q.filter (fun b => db.book_categories.any (fun bc =>
      bc.1 == b.id && db.categories.any (fun cat =>
        cat.id == bc.2 && ilike cat.name ('%' :: (c ++ ['%'])))))
  | none => q

/-- `if year: query.filter(Book.year == year)` (`0` is Python-falsy). -/
def yearFilter (year : Option Int) (q : List Book) : List Book :=
  match year with
  | some y => if y ≠ 0 then q.filter (fun b => b.year == y) else q
  | none => q

/-- `if author_id: query.filter(Book.author_id == author_id)`. -/
def authorFilter (author_id : Option Int) (q : List Book) : List Book :=
  match author_id with
  | some a => if a ≠ 0 then q.filter (fun b => b.author_id == a) else q
  | none => q

/-- `BookService._build_book_query`, evaluated against a database state: the
four guarded filters of the source applied in order, and the result read at
membership level (the category join can duplicate rows; the claims below
quantify over membership). -/
def build_book_query (db : DBState) (search category : Option PyStr)
    (year author_id : Option Int) : List Book :=
  authorFilter author_id (yearFilter year
    (categoryFilter db category (searchFilter db search db.books)))

end BookService

/-- Case-insensitive substring containment, the spec's reading of the
search/category matching. -/
def containsCI (term s : PyStr) : Prop :=
  lowerStr term <:+: lowerStr s

instance (term s : PyStr) : Decidable (containsCI term s) := by
  unfold containsCI; infer_instance

/-- The term contains no SQL `LIKE` wildcard character. -/
def noWildcard (t : PyStr) : Prop :=
  ∀ c ∈ t, c ≠ '%' ∧ c ≠ '_'

instance (t : PyStr) : Decidable (noWildcard t) := by
  unfold noWildcard; infer_instance

/-- The spec's filter contract for book listing (spec §4.3): the conjunction
of the supplied clauses; search is a case-insensitive substring match on the
title or the owning author's name, category a case-insensitive substring
match on some associated category's name, year and author exact. -/
def bookMatchesSpec (db : DBState) (search category : Option PyStr)
    (year author_id : Option Int) (b : Book) : Prop :=
  (∀ t, search = some t →
    (containsCI t b.title ∨
      ∃ a, db.authors.find? (fun x => x.id == b.author_id) = some a ∧ containsCI t a.name))
  ∧ (∀ t, category = some t →
      ∃ c ∈ db.categories, (b.id, c.id) ∈ db.book_categories ∧ containsCI t c.name)
  ∧ (∀ y, year = some y → b.year = y)
  ∧ (∀ a, author_id = some a → b.author_id = a)

/-- The error of a service result, if any. -/
def errOf : Except LibError Book → Option LibError
  | .error e => some e
  | .ok _ => none

/-- The spec's stated check order for Create Book (spec §4.4): field
validation, then author existence, then ISBN uniqueness, then category-id
existence; `none` when every check passes. -/
def createBookSpecError (db : DBState) (d : BookInput) (today : Int) : Option LibError :=
  match BookValidator.validate_book_data d false today with
  | .error e => some (.validation e)
  | .ok _ =>
    match d.author_id with
    | none => some (.authorNotFound none)
    | some aid =>
      if db.authors.all (fun a => a.id ≠ aid) then some (.authorNotFound (some aid))
      else
        let i := (d.isbn.getD none).getD []
        if db.books.any (fun b => b.isbn == i) then some (.duplicateIsbn i)
        else
          let requested : List Int := match d.category_ids with
            | some (some l) => l
            | _ => []
          let missing := BookService.missing_category_ids db requested
          if missing.isEmpty then none
          else some (.validation ⟨BookService.catNotFoundMsg missing, some "category_ids".data⟩)

lemma pyIsDigit_iff (l : PyStr) :
    pyIsDigit l = true ↔ l ≠ [] ∧ ∀ c ∈ l, c.isDigit = true := by
  simp [pyIsDigit, List.all_eq_true, List.isEmpty_iff]

/-- C2.  ISBN validation succeeds iff the input with all hyphens and spaces
removed is all-digit of length exactly 10 or exactly 13, and every failure
carries field `isbn`. -/
theorem isbn_valid_iff_clean_digits (s : PyStr) :
    (BookValidator.validate_isbn (some s) = .ok () ↔
      ((∀ c ∈ BookValidator.isbnClean s, c.isDigit = true) ∧
       ((BookValidator.isbnClean s).length = 10 ∨ (BookValidator.isbnClean s).length = 13)))
    ∧ ∀ e, BookValidator.validate_isbn (some s) = .error e → e.field = some "isbn".data := by
  unfold BookValidator.validate_isbn
  simp only [pyStrRepr]
  split_ifs with h1 h2
  · -- non-digit remainder: fails with field "isbn"
    rw [Bool.not_eq_true', ← Bool.not_eq_true] at h1
    rw [pyIsDigit_iff] at h1
    constructor
    · simp only [reduceCtorEq, false_iff]
      rintro ⟨hall, hlen⟩
      exact h1 ⟨by intro hnil; rw [hnil] at hlen; simp at hlen, hall⟩
    · rintro e he
      cases he; rfl
  · -- wrong length: fails with field "isbn"
    constructor
    · simp only [reduceCtorEq, false_iff]
      rintro ⟨-, hlen⟩
      rcases hlen with h | h <;> simp [h] at h2
    · rintro e he
      cases he; rfl
  · -- success
    rw [Bool.not_eq_true', Bool.not_eq_false, pyIsDigit_iff] at h1
    constructor
    · simp only [true_iff]
      refine ⟨h1.2, ?_⟩
      by_cases h10 : (BookValidator.isbnClean s).length = 10
      · exact .inl h10
      · exact .inr (by tauto)
    · rintro e he
      cases he

/-- Witness for C2 at concrete inputs. -/
theorem isbn_valid_iff_clean_digits_witness :
    BookValidator.validate_isbn (some "978-0132350884".data) = .ok () ∧
    (⟨"ISBN must contain only digits (hyphens and spaces are allowed)".data,
      some "isbn".data⟩ : VError).field = some "isbn".data :=
  ⟨(isbn_valid_iff_clean_digits "978-0132350884".data).1.mpr (by decide),
   (isbn_valid_iff_clean_digits "abc".data).2 _ rfl⟩


instance {ε α : Type} [DecidableEq ε] [DecidableEq α] : DecidableEq (Except ε α) := fun a b =>
  match a, b with
  | .error x, .error y =>
    if h : x = y then .isTrue (by rw [h]) else .isFalse (by intro hc; cases hc; exact h rfl)
  | .ok x, .ok y =>
    if h : x = y then .isTrue (by rw [h]) else .isFalse (by intro hc; cases hc; exact h rfl)
  | .error _, .ok _ => .isFalse (by intro hc; cases hc)
  | .ok _, .error _ => .isFalse (by intro hc; cases hc)

lemma optAny_eq_true {α : Type} (o : Option α) (p : α → Bool) :
    o.any p = true ↔ ∃ x, o = some x ∧ p x = true := by
  cases o <;> simp [Option.any]

/-- C4 counterexample.  A 100-character category name followed by one space
has trimmed length 100, inside the allowed range [2,100], yet validation
fails: the maximum-length check measures the raw, untrimmed length (101). -/
theorem string_max_length_uses_raw_length_cex :
    CategoryValidator.validate_name (some (List.replicate 100 'a' ++ [' '])) =
      .error ⟨"Category name must be 100 characters or less".data,
              some "category name".data⟩
    ∧ (pyStrip (List.replicate 100 'a' ++ [' '])).length = 100
    ∧ 2 ≤ (pyStrip (List.replicate 100 'a' ++ [' '])).length := by
  refine ⟨by decide, by decide, by decide⟩

/-- C4 (amended).  `validate_string_length` measures the trimmed length for
the minimum check but the raw length for the maximum check, and
`validate_not_empty` fails exactly on empty-or-whitespace-only values with
the message "<Field> cannot be empty". -/
theorem string_length_trim_min_raw_max (v field : PyStr) (mn mx : Option Nat) :
    (BaseValidator.validate_string_length (some v) field mn mx = .ok () ↔
      ((∀ m, mn = some m → m ≤ (pyStrip v).length) ∧
       (∀ m, mx = some m → v.length ≤ m)))
    ∧ (BaseValidator.validate_not_empty (some v) field = .ok () ↔ pyStrip v ≠ [])
    ∧ (pyStrip v = [] →
        BaseValidator.validate_not_empty (some v) field =
          .error ⟨pyCapitalize field ++ " cannot be empty".data, some field⟩) := by
  refine ⟨?_, ?_, ?_⟩
  · simp only [BaseValidator.validate_string_length]
    split_ifs with h1 h2
    · simp only [reduceCtorEq, false_iff, not_and]
      intro hmin
      rcases (optAny_eq_true mn _).mp h1 with ⟨m, hm, hlt⟩
      exact absurd (hmin m hm) (by simpa using hlt)
    · simp only [reduceCtorEq, false_iff, not_and]
      intro _ hmax
      rcases (optAny_eq_true mx _).mp h2 with ⟨m, hm, hlt⟩
      exact absurd (hmax m hm) (by simpa using hlt)
    · simp only [true_iff]
      constructor
      · intro m hm
        by_contra hcon
        exact h1 ((optAny_eq_true mn _).mpr ⟨m, hm, by simpa using Nat.lt_of_not_le hcon⟩)
      · intro m hm
        by_contra hcon
        exact h2 ((optAny_eq_true mx _).mpr ⟨m, hm, by simpa using Nat.lt_of_not_le hcon⟩)
  · simp only [BaseValidator.validate_not_empty]
    split_ifs with h
    · simp only [reduceCtorEq, false_iff, not_not]
      rcases Bool.or_eq_true _ _ ▸ h with h' | h'
      · rw [List.isEmpty_iff] at h'; rw [h']; rfl
      · exact List.isEmpty_iff.mp h'
    · simp only [true_iff]
      intro hnil
      apply h
      simp [List.isEmpty_iff, hnil]
  · intro hnil
    simp only [BaseValidator.validate_not_empty]
    rw [if_pos (by simp [List.isEmpty_iff, hnil])]

/-- Witness for C4's amended theorem at concrete inputs. -/
theorem string_length_trim_min_raw_max_witness :
    BaseValidator.validate_string_length (some " a ".data) "title".data
      (some 1) (some 3) = .ok () ∧
    BaseValidator.validate_not_empty (some "  ".data) "title".data =
      .error ⟨"Title cannot be empty".data, some "title".data⟩ :=
  ⟨(string_length_trim_min_raw_max " a ".data "title".data (some 1) (some 3)).1.mpr
      ⟨fun m hm => by cases hm; decide, fun m hm => by cases hm; decide⟩,
   (string_length_trim_min_raw_max "  ".data "title".data none none).2.2 (by decide)⟩

lemma validate_pagination_eval (page per_page : Option PyVal) :
    PaginationValidator.validate_pagination page per_page =
      (match pyToInt (page.getD (.int 1)) with
      | none => .error ⟨"Page must be a valid number".data, some "page".data⟩
      | some a =>
        if a < 1 then .error ⟨"Page must be at least 1".data, some "page".data⟩
        else match pyToInt (per_page.getD (.int 10)) with
          | none => .error ⟨"Per_page must be a valid number".data, some "per_page".data⟩
          | some b =>
            if b < 1 then .error ⟨"Per_page must be at least 1".data, some "per_page".data⟩
            else if b > 100 then
              .error ⟨"Per_page must be at most 100".data, some "per_page".data⟩
            else .ok (a, b)) := by
  unfold PaginationValidator.validate_pagination BaseValidator.validate_integer_range
  rcases hp : pyToInt (page.getD (.int 1)) with _ | a
  · simp only [hp, Option.any]
    rfl
  · by_cases ha : a < 1
    · simp only [hp, ha, Option.any]
      simp [ha]
      rfl
    · rcases hq : pyToInt (per_page.getD (.int 10)) with _ | b
      · simp only [hp, hq, Option.any]
        simp [ha]
        rfl
      · by_cases hb : b < 1
        · simp only [hp, hq, Option.any]
          simp [ha, hb]
          rfl
        · by_cases hb2 : b > 100
          · simp only [hp, hq, Option.any]
            simp [ha, hb, hb2]
            rfl
          · simp only [hp, hq, Option.any]
            simp [ha, hb, hb2]
            rfl

/-- C5.  Pagination validation: absent inputs default to page=1, per_page=10;
success returns exactly the parsed pair iff page parses to an integer ≥ 1 and
per_page parses to an integer in [1,100]; every failure is tagged "page" or
"per_page"; a non-parsing page (resp. per_page) always fails with that field
tag rather than silently defaulting. -/
theorem pagination_valid_iff (page per_page : Option PyVal) :
    PaginationValidator.validate_pagination none none = .ok (1, 10)
    ∧ (∀ a b : Int, PaginationValidator.validate_pagination page per_page = .ok (a, b) ↔
        (pyToInt (page.getD (.int 1)) = some a ∧ 1 ≤ a ∧
         pyToInt (per_page.getD (.int 10)) = some b ∧ 1 ≤ b ∧ b ≤ 100))
    ∧ (∀ e, PaginationValidator.validate_pagination page per_page = .error e →
        e.field = some "page".data ∨ e.field = some "per_page".data)
    ∧ (pyToInt (page.getD (.int 1)) = none →
        ∃ e, PaginationValidator.validate_pagination page per_page = .error e ∧
          e.field = some "page".data)
    ∧ (∀ a : Int, pyToInt (page.getD (.int 1)) = some a → 1 ≤ a →
        pyToInt (per_page.getD (.int 10)) = none →
        ∃ e, PaginationValidator.validate_pagination page per_page = .error e ∧
          e.field = some "per_page".data) := by
  refine ⟨by decide, ?_, ?_, ?_, ?_⟩
  · intro a b
    rw [validate_pagination_eval]
    rcases hp : pyToInt (page.getD (.int 1)) with _ | x
    · simp
    · by_cases hx : x < 1
      · simp only [hx, if_true, reduceCtorEq, false_iff, not_and]
        rintro h1 h2
        cases h1
        omega
      · rcases hq : pyToInt (per_page.getD (.int 10)) with _ | y
        · simp [hx, hq]
        · by_cases hy : y < 1
          · simp only [hy, hx, if_true, if_false, reduceCtorEq, false_iff, not_and]
            rintro - - h3 h4
            cases h3
            omega
          · by_cases hy2 : y > 100
            · simp only [hy, hy2, hx, if_true, if_false, reduceCtorEq, false_iff, not_and]
              rintro - - h3 h4 h5
              cases h3
              omega
            · simp only [hy, hy2, hx, if_false, Except.ok.injEq, Prod.mk.injEq,
                Option.some.injEq]
              constructor
              · rintro ⟨rfl, rfl⟩
                exact ⟨rfl, by omega, rfl, by omega, by omega⟩
              · rintro ⟨rfl, -, rfl, -, -⟩
                exact ⟨rfl, rfl⟩
  · intro e he
    rw [validate_pagination_eval] at he
    rcases hp : pyToInt (page.getD (.int 1)) with _ | x <;> simp only [hp] at he
    · cases he; left; rfl
    · by_cases hx : x < 1
      · rw [if_pos hx] at he; cases he; left; rfl
      · rw [if_neg hx] at he
        rcases hq : pyToInt (per_page.getD (.int 10)) with _ | y <;> simp only [hq] at he
        · cases he; right; rfl
        · by_cases hy : y < 1
          · rw [if_pos hy] at he; cases he; right; rfl
          · rw [if_neg hy] at he
            by_cases hy2 : y > 100
            · rw [if_pos hy2] at he; cases he; right; rfl
            · rw [if_neg hy2] at he; cases he
  · intro hp
    rw [validate_pagination_eval, hp]
    exact ⟨_, rfl, rfl⟩
  · intro a hp ha hq
    rw [validate_pagination_eval]
    simp only [hp, hq]
    rw [if_neg (show ¬a < 1 by omega)]
    exact ⟨_, rfl, rfl⟩

/-- Witness for C5: page=0 fails with a field-tagged error; page=1 with
per_page=100 succeeds; non-numeric page / per_page fail with their tags. -/
theorem pagination_valid_iff_witness :
    PaginationValidator.validate_pagination (some (.int 1)) (some (.int 100)) = .ok (1, 100)
    ∧ (∃ e, PaginationValidator.validate_pagination (some (.int 0)) none = .error e ∧
        (e.field = some "page".data ∨ e.field = some "per_page".data))
    ∧ (∃ e, PaginationValidator.validate_pagination (some (.str "abc".data)) none = .error e ∧
        e.field = some "page".data)
    ∧ (∃ e, PaginationValidator.validate_pagination (some (.int 1)) (some (.str "abc".data)) =
        .error e ∧ e.field = some "per_page".data) :=
  ⟨((pagination_valid_iff (some (.int 1)) (some (.int 100))).2.1 1 100).mpr
      ⟨rfl, by omega, rfl, by omega, by omega⟩,
   ⟨_, rfl, (pagination_valid_iff (some (.int 0)) none).2.2.1 _ rfl⟩,
   (pagination_valid_iff (some (.str "abc".data)) none).2.2.2.1 rfl,
   (pagination_valid_iff (some (.int 1)) (some (.str "abc".data))).2.2.2.2 1 rfl
      (by omega) rfl⟩

/-- C6.  `delete_author`: a missing id raises the distinct author-not-found
error; with the author present, a validation error is raised iff the author
owns at least one book, and that error's message names the owned-book count
and instructs that the books must be deleted first; with zero owned books the
author is deleted and the deletion committed. -/
theorem delete_author_spec (s : Session) (aid : Int) :
    (AuthorService.get_author s.pending aid = none →
      AuthorService.delete_author s aid = (s, .error (.authorNotFound (some aid))))
    ∧ (∀ author, AuthorService.get_author s.pending aid = some author →
        (((s.pending.books.filter (fun b => b.author_id == aid)).length = 0) →
          AuthorService.delete_author s aid =
            (⟨{ s.pending with authors := s.pending.authors.filter (fun a => a.id ≠ aid) },
               { s.pending with authors := s.pending.authors.filter (fun a => a.id ≠ aid) }⟩,
             .ok author))
        ∧ (∀ n, (s.pending.books.filter (fun b => b.author_id == aid)).length = n → 0 < n →
            AuthorService.delete_author s aid =
              (s, .error (.validation ⟨AuthorService.cannotDeleteMsg n, none⟩)))
        ∧ ((∃ e, (AuthorService.delete_author s aid).2 = .error (.validation e)) ↔
            1 ≤ (s.pending.books.filter (fun b => b.author_id == aid)).length))
    ∧ (∀ n, AuthorService.cannotDeleteMsg n =
        "Cannot delete author with existing books. Delete ".data ++ natStr n ++
        " book(s) first.".data) := by
  refine ⟨?_, ?_, fun n => rfl⟩
  · intro h
    unfold AuthorService.delete_author
    simp only [h]
  · intro author h
    refine ⟨?_, ?_, ?_⟩
    · intro hz
      unfold AuthorService.delete_author
      simp only [h]
      rw [if_neg (by omega)]
    · intro n hn hpos
      unfold AuthorService.delete_author
      simp only [h]
      rw [hn, if_pos (by omega)]
    · constructor
      · rintro ⟨e, he⟩
        by_contra hlen
        have hz : (s.pending.books.filter (fun b => b.author_id == aid)).length = 0 := by
          omega
        unfold AuthorService.delete_author at he
        simp only [h] at he
        rw [if_neg (by omega)] at he
        cases he
      · intro hlen
        refine ⟨⟨AuthorService.cannotDeleteMsg
            (s.pending.books.filter (fun b => b.author_id == aid)).length, none⟩, ?_⟩
        unfold AuthorService.delete_author
        simp only [h]
        rw [if_pos (by omega)]

/-- A concrete two-author state used by the C6 witness. -/
def c6DB : DBState :=
  ⟨[⟨1, "B1".data, "111".data, 2000, none, none, 1, 0, 0⟩],
   [⟨1, "Ann".data, none, none, 0, 0⟩, ⟨2, "Bob".data, none, none, 0, 0⟩], [], []⟩

/-- The same state after deleting author 2. -/
def c6DB2 : DBState :=
  ⟨[⟨1, "B1".data, "111".data, 2000, none, none, 1, 0, 0⟩],
   [⟨1, "Ann".data, none, none, 0, 0⟩], [], []⟩

/-- Witness for C6 on a concrete two-author state. -/
theorem delete_author_spec_witness :
    AuthorService.delete_author ⟨c6DB, c6DB⟩ 1 =
      (⟨c6DB, c6DB⟩, .error (.validation ⟨AuthorService.cannotDeleteMsg 1, none⟩))
    ∧ AuthorService.delete_author ⟨c6DB, c6DB⟩ 2 =
      (⟨c6DB2, c6DB2⟩, .ok ⟨2, "Bob".data, none, none, 0, 0⟩)
    ∧ AuthorService.delete_author ⟨c6DB, c6DB⟩ 7 =
      (⟨c6DB, c6DB⟩, .error (.authorNotFound (some 7))) :=
  ⟨(delete_author_spec ⟨c6DB, c6DB⟩ 1).2.1 ⟨1, "Ann".data, none, none, 0, 0⟩ rfl
      |>.2.1 1 rfl (by omega),
   (delete_author_spec ⟨c6DB, c6DB⟩ 2).2.1 ⟨2, "Bob".data, none, none, 0, 0⟩ rfl
      |>.1 rfl,
   (delete_author_spec ⟨c6DB, c6DB⟩ 7).1 rfl⟩

lemma verify_author_exists_absent (db : DBState) (aid : Int)
    (h : db.authors.all (fun a => a.id ≠ aid) = true) :
    BookService.verify_author_exists db aid = .error (.authorNotFound (some aid)) := by
  unfold BookService.verify_author_exists
  rw [List.all_eq_true] at h
  have : db.authors.find? (fun a => a.id == aid) = none := by
    rw [List.find?_eq_none]
    intro a ha
    simpa using h a ha
  rw [this]

lemma verify_author_exists_present (db : DBState) (aid : Int)
    (h : db.authors.all (fun a => a.id ≠ aid) = false) :
    BookService.verify_author_exists db aid = .ok () := by
  unfold BookService.verify_author_exists
  rcases hfind : db.authors.find? (fun a => a.id == aid) with _ | a0
  · exfalso
    rw [List.find?_eq_none] at hfind
    rw [← Bool.not_eq_true, List.all_eq_true] at h
    apply h
    intro a ha
    simpa using hfind a ha
  · rw [hfind]

lemma check_duplicate_isbn_none_eval (db : DBState) (i : PyStr) :
    BookService.check_duplicate_isbn db i none =
      (if (db.books.filter (fun b => b.isbn == i)).isEmpty then (.ok () : Except LibError Unit)
       else .error (.duplicateIsbn i)) := rfl

lemma check_duplicate_isbn_none_dup (db : DBState) (i : PyStr)
    (h : db.books.any (fun b => b.isbn == i) = true) :
    BookService.check_duplicate_isbn db i none = .error (.duplicateIsbn i) := by
  rw [check_duplicate_isbn_none_eval, if_neg]
  rw [List.any_eq_true] at h
  rcases h with ⟨b, hb, hbi⟩
  intro hemp
  rw [List.isEmpty_iff] at hemp
  have : b ∈ db.books.filter (fun b => b.isbn == i) := List.mem_filter.mpr ⟨hb, hbi⟩
  rw [hemp] at this
  cases this

lemma check_duplicate_isbn_none_fresh (db : DBState) (i : PyStr)
    (h : db.books.any (fun b => b.isbn == i) = false) :
    BookService.check_duplicate_isbn db i none = .ok () := by
  rw [check_duplicate_isbn_none_eval, if_pos]
  rw [List.isEmpty_iff, List.filter_eq_nil_iff]
  intro b hb
  rw [← Bool.not_eq_true, List.any_eq_true] at h
  intro hbi
  exact h ⟨b, hb, hbi⟩

lemma add_categories_to_book_err (db : DBState) (l : List Int)
    (h : (BookService.missing_category_ids db l).isEmpty = false) :
    BookService.add_categories_to_book db l =
      .error (.validation ⟨BookService.catNotFoundMsg (BookService.missing_category_ids db l),
                           some "category_ids".data⟩) := by
  unfold BookService.add_categories_to_book
  rw [if_pos (by rw [h]; rfl)]

lemma add_categories_to_book_ok (db : DBState) (l : List Int)
    (h : (BookService.missing_category_ids db l).isEmpty = true) :
    BookService.add_categories_to_book db l =
      .ok ((db.categories.filter (fun c => l.contains c.id)).map (fun c => c.id)) := by
  unfold BookService.add_categories_to_book
  rw [if_neg (by rw [h]; simp)]

/-- C8.  `create_book` raises exactly the first applicable error in the fixed
order: field validation, then author existence, then ISBN uniqueness, then
category-id existence; when none applies the result is a success (the
persist step). -/
theorem create_book_check_order (s : Session) (d : BookInput) (today now : Int) :
    errOf (BookService.create_book s d today now).2 =
      createBookSpecError s.pending d today := by
  cases hv : BookValidator.validate_book_data d false today with
  | error e => simp [BookService.create_book, createBookSpecError, hv, errOf]
  | ok u =>
    cases u
    cases ha : d.author_id with
    | none => simp [BookService.create_book, createBookSpecError, hv, ha, errOf]
    | some aid =>
      cases hex : s.pending.authors.all (fun a => a.id ≠ aid) with
      | true =>
        have hver := verify_author_exists_absent s.pending aid hex
        have hexP : ∀ x ∈ s.pending.authors, ¬x.id = aid := by
          rw [List.all_eq_true] at hex
          intro x hx
          simpa using hex x hx
        simp [BookService.create_book, createBookSpecError, hv, ha, hver, hexP, errOf]
        rw [if_pos hexP]
      | false =>
        have hver := verify_author_exists_present s.pending aid hex
        have hexP : ¬∀ x ∈ s.pending.authors, ¬x.id = aid := by
          intro hall
          have : (s.pending.authors.all fun a => decide (a.id ≠ aid)) = true :=
            List.all_eq_true.mpr (fun x hx => by simpa using hall x hx)
          rw [hex] at this
          cases this
        cases hdup : s.pending.books.any (fun b => b.isbn == (d.isbn.getD none).getD []) with
        | true =>
          have hchk := check_duplicate_isbn_none_dup s.pending _ hdup
          have hdupP : ∃ x ∈ s.pending.books, x.isbn = (d.isbn.getD none).getD [] := by
            simpa using hdup
          simp [BookService.create_book, createBookSpecError, hv, ha, hver, hchk, hexP,
                hdupP, errOf]
        | false =>
          have hchk := check_duplicate_isbn_none_fresh s.pending _ hdup
          have hdupP : ∀ x ∈ s.pending.books, ¬x.isbn = (d.isbn.getD none).getD [] := by
            intro x hx hxi
            have : (s.pending.books.any fun b => b.isbn == (d.isbn.getD none).getD []) =
                true := List.any_eq_true.mpr ⟨x, hx, by simpa using hxi⟩
            rw [hdup] at this
            cases this
          have hdupN : ¬∃ x ∈ s.pending.books, x.isbn = (d.isbn.getD none).getD [] := by
            rintro ⟨x, hx, hxi⟩
            exact hdupP x hx hxi
          cases hc : d.category_ids with
          | none =>
            simp [BookService.create_book, createBookSpecError, hv, ha, hver, hchk, hexP,
                  hdupP, hc, errOf, BookService.missing_category_ids]
            rw [if_neg hdupN]
          | some inner =>
            cases inner with
            | none =>
              simp [BookService.create_book, createBookSpecError, hv, ha, hver, hchk, hexP,
                    hdupP, hc, errOf, BookService.missing_category_ids]
              rw [if_neg hdupN]
            | some l =>
              cases hl : l.isEmpty with
              | true =>
                rw [List.isEmpty_iff] at hl
                subst hl
                simp [BookService.create_book, createBookSpecError, hv, ha, hver, hchk,
                      hexP, hdupP, hc, errOf, BookService.missing_category_ids]
                rw [if_neg hdupN]
              | false =>
                cases hm : (BookService.missing_category_ids s.pending l).isEmpty with
                | true =>
                  have hadd := add_categories_to_book_ok s.pending l hm
                  have hmP : BookService.missing_category_ids s.pending l = [] :=
                    List.isEmpty_iff.mp hm
                  simp [BookService.create_book, createBookSpecError, hv, ha, hver, hchk,
                        hexP, hdupP, hc, hl, hadd, hmP, errOf]
                  rw [if_neg hdupN]
                | false =>
                  have hadd := add_categories_to_book_err s.pending l hm
                  have hmP : ¬BookService.missing_category_ids s.pending l = [] := by
                    intro h0
                    rw [List.isEmpty_iff.mpr h0] at hm
                    cases hm
                  simp [BookService.create_book, createBookSpecError, hv, ha, hver, hchk,
                        hexP, hdupP, hc, hl, hadd, hmP, errOf]
                  rw [if_neg hdupN]

/-- C3 counterexample state: one author and one book with ISBN 1234567890. -/
def c3DB : DBState :=
  ⟨[⟨1, "T".data, "1234567890".data, 2000, none, none, 1, 0, 0⟩],
   [⟨1, "Ann".data, none, none, 0, 0⟩], [], []⟩

/-- C3 input: isbn equal to the stored book's ISBN but an empty title. -/
def c3Input : BookInput :=
  { title := some (some []), isbn := some (some "1234567890".data),
    year := some 2000, author_id := some 1 }

/-- C3 counterexample.  With a stored book carrying the same ISBN, a
create-book input whose title is empty fails with the required-field
validation error, not with the duplicate-ISBN error: field validation runs
before the uniqueness check, so the claim's "regardless of all other input
fields" fails. -/
theorem create_book_duplicate_isbn_cex :
    (∃ b ∈ c3DB.books, b.isbn = "1234567890".data)
    ∧ c3Input.isbn = some (some "1234567890".data)
    ∧ BookService.create_book ⟨c3DB, c3DB⟩ c3Input 2024 5 =
        (⟨c3DB, c3DB⟩,
         .error (.validation ⟨"Missing required field: title".data, some "title".data⟩)) := by
  refine ⟨by decide, rfl, rfl⟩

/-- C3 (amended).  For every state and every create-book input that passes
field validation, references an existing author, and carries an ISBN string
equal to a stored book's ISBN, `create_book` fails with the duplicate-ISBN
error carrying that string and leaves the state unchanged (no Book is
created). -/
theorem create_book_duplicate_isbn_amended (s : Session) (d : BookInput)
    (today now aid : Int) (i : PyStr)
    (hv : BookValidator.validate_book_data d false today = .ok ())
    (ha : d.author_id = some aid)
    (hex : (s.pending.authors.find? (fun a => a.id == aid)).isSome = true)
    (hi : d.isbn = some (some i))
    (hdup : ∃ b ∈ s.pending.books, b.isbn = i) :
    BookService.create_book s d today now = (s, .error (.duplicateIsbn i)) := by
  rcases Option.isSome_iff_exists.mp hex with ⟨a0, hfind⟩
  have hver : BookService.verify_author_exists s.pending aid = .ok () := by
    unfold BookService.verify_author_exists
    rw [hfind]
  have hdupB : (s.pending.books.any fun b => b.isbn == i) = true := by
    rcases hdup with ⟨b, hb, hbi⟩
    exact List.any_eq_true.mpr ⟨b, hb, by simpa using hbi⟩
  have hchk := check_duplicate_isbn_none_dup s.pending i hdupB
  have hieq : (d.isbn.getD none).getD [] = i := by rw [hi]; rfl
  simp [BookService.create_book, hv, ha, hver, hieq, hchk]

/-- Witness for C3's amended theorem: the same duplicate input with a valid
title does fail with the duplicate-ISBN error. -/
theorem create_book_duplicate_isbn_amended_witness :
    BookService.create_book ⟨c3DB, c3DB⟩
      { title := some (some "T2".data), isbn := some (some "1234567890".data),
        year := some 2001, author_id := some 1 } 2024 5 =
      (⟨c3DB, c3DB⟩, .error (.duplicateIsbn "1234567890".data)) :=
  create_book_duplicate_isbn_amended ⟨c3DB, c3DB⟩ _ 2024 5 1 "1234567890".data
    (by decide) rfl (by decide) rfl (by decide)

lemma create_book_object_isbn (db : DBState) (d : BookInput) (now : Int) (i : PyStr)
    (hi : d.isbn = some (some i)) :
    (BookService.create_book_object db d now).isbn = i := by
  simp [BookService.create_book_object, hi]

lemma create_book_success (s : Session) (d : BookInput) (today now aid : Int) (i : PyStr)
    (hv : BookValidator.validate_book_data d false today = .ok ())
    (ha : d.author_id = some aid)
    (hex : (s.pending.authors.find? (fun a => a.id == aid)).isSome = true)
    (hi : d.isbn = some (some i))
    (hc : d.category_ids = none)
    (hno : (s.pending.books.any fun b => b.isbn == i) = false) :
    BookService.create_book s d today now =
      (⟨{ s.pending with books := s.pending.books ++
            [BookService.create_book_object s.pending d now] },
        { s.pending with books := s.pending.books ++
            [BookService.create_book_object s.pending d now] }⟩,
       .ok (BookService.create_book_object s.pending d now)) := by
  rcases Option.isSome_iff_exists.mp hex with ⟨a0, hfind⟩
  have hver : BookService.verify_author_exists s.pending aid = .ok () := by
    unfold BookService.verify_author_exists
    rw [hfind]
  have hieq : (d.isbn.getD none).getD [] = i := by rw [hi]; rfl
  have hchk := check_duplicate_isbn_none_fresh s.pending i hno
  simp [BookService.create_book, hv, ha, hver, hieq, hchk, hc]

/-- C10.  The duplicate pre-check and the stored ISBN both use the raw input
string: two create-book calls whose ISBNs are distinct strings that strip to
the same digit sequence both succeed, and both books end up committed. -/
theorem create_book_raw_isbn_both_created (s : Session) (d1 d2 : BookInput)
    (today now a1 a2 : Int) (i1 i2 : PyStr)
    (hv1 : BookValidator.validate_book_data d1 false today = .ok ())
    (hv2 : BookValidator.validate_book_data d2 false today = .ok ())
    (ha1 : d1.author_id = some a1) (ha2 : d2.author_id = some a2)
    (he1 : (s.pending.authors.find? (fun a => a.id == a1)).isSome = true)
    (he2 : (s.pending.authors.find? (fun a => a.id == a2)).isSome = true)
    (hi1 : d1.isbn = some (some i1)) (hi2 : d2.isbn = some (some i2))
    (hc1 : d1.category_ids = none) (hc2 : d2.category_ids = none)
    (hne : i1 ≠ i2)
    (hstrip : BookValidator.isbnClean i1 = BookValidator.isbnClean i2)
    (hno1 : ∀ b ∈ s.pending.books, b.isbn ≠ i1)
    (hno2 : ∀ b ∈ s.pending.books, b.isbn ≠ i2) :
    ∃ s1 b1 s2 b2,
      BookService.create_book s d1 today now = (s1, .ok b1)
      ∧ BookService.create_book s1 d2 today now = (s2, .ok b2)
      ∧ b1.isbn = i1 ∧ b2.isbn = i2
      ∧ (∃ b ∈ s2.committed.books, b.isbn = i1)
      ∧ (∃ b ∈ s2.committed.books, b.isbn = i2) := by
  have hany1 : (s.pending.books.any fun b => b.isbn == i1) = false := by
    rw [← Bool.not_eq_true, List.any_eq_true]
    rintro ⟨b, hb, hbi⟩
    exact hno1 b hb (by simpa using hbi)
  have hstep1 := create_book_success s d1 today now a1 i1 hv1 ha1 he1 hi1 hc1 hany1
  set book1 := BookService.create_book_object s.pending d1 now with hb1
  set db1 : DBState := { s.pending with books := s.pending.books ++ [book1] } with hdb1
  have hb1isbn : book1.isbn = i1 := create_book_object_isbn s.pending d1 now i1 hi1
  have hauth1 : db1.authors = s.pending.authors := rfl
  have hany2 : (db1.books.any fun b => b.isbn == i2) = false := by
    rw [← Bool.not_eq_true, List.any_eq_true]
    rintro ⟨b, hb, hbi⟩
    rcases List.mem_append.mp hb with h | h
    · exact hno2 b h (by simpa using hbi)
    · rcases List.mem_singleton.mp h with rfl
      exact hne (by rw [← hb1isbn]; simpa using hbi)
  have he2' : ((⟨db1, db1⟩ : Session).pending.authors.find?
      (fun a => a.id == a2)).isSome = true := by
    rw [show (⟨db1, db1⟩ : Session).pending.authors = s.pending.authors from rfl]
    exact he2
  have hstep2 := create_book_success ⟨db1, db1⟩ d2 today now a2 i2 hv2 ha2 he2' hi2 hc2
    (by rw [show (⟨db1, db1⟩ : Session).pending.books = db1.books from rfl]; exact hany2)
  set book2 := BookService.create_book_object db1 d2 now with hb2
  have hb2isbn : book2.isbn = i2 := create_book_object_isbn db1 d2 now i2 hi2
  refine ⟨_, book1, _, book2, hstep1, hstep2, hb1isbn, hb2isbn, ⟨book1, ?_, hb1isbn⟩,
    ⟨book2, ?_, hb2isbn⟩⟩
  · exact List.mem_append.mpr (.inl (List.mem_append.mpr (.inr (List.mem_singleton.mpr rfl))))
  · exact List.mem_append.mpr (.inr (List.mem_singleton.mpr rfl))

/-- The state for the C10 witness: one author, no books. -/
def c10DB : DBState := ⟨[], [⟨1, "Ann".data, none, none, 0, 0⟩], [], []⟩

/-- Witness for C10: "9780132350884" and "978-0132350884" strip to the same
digits but are distinct raw strings; both creates succeed. -/
theorem create_book_raw_isbn_both_created_witness :
    ∃ s1 b1 s2 b2,
      BookService.create_book ⟨c10DB, c10DB⟩
          { title := some (some "A".data), isbn := some (some "9780132350884".data),
            year := some 2008, author_id := some 1 } 2024 5 = (s1, .ok b1)
      ∧ BookService.create_book s1
          { title := some (some "B".data), isbn := some (some "978-0132350884".data),
            year := some 2008, author_id := some 1 } 2024 5 = (s2, .ok b2)
      ∧ b1.isbn = "9780132350884".data ∧ b2.isbn = "978-0132350884".data
      ∧ (∃ b ∈ s2.committed.books, b.isbn = "9780132350884".data)
      ∧ (∃ b ∈ s2.committed.books, b.isbn = "978-0132350884".data) :=
  create_book_raw_isbn_both_created ⟨c10DB, c10DB⟩ _ _ 2024 5 1 1
    "9780132350884".data "978-0132350884".data
    (by decide) (by decide) rfl rfl (by decide) (by decide) rfl rfl rfl rfl
    (by decide) (by decide) (by decide) (by decide)

lemma char_toNat_ofNat (n : Nat) (h : n.isValidChar) : (Char.ofNat n).toNat = n := by
  rw [Char.ofNat, dif_pos h]
  rfl

lemma toLower_ne_special (c : Char) (h1 : c ≠ '%') (h2 : c ≠ '_') :
    c.toLower ≠ '%' ∧ c.toLower ≠ '_' := by
  have heval : c.toLower =
      if c.toNat ≥ 65 ∧ c.toNat ≤ 90 then Char.ofNat (c.toNat + 32) else c := rfl
  rw [heval]
  split_ifs with hcond
  · have hval : (Char.ofNat (c.toNat + 32)).toNat = c.toNat + 32 := by
      apply char_toNat_ofNat
      left
      omega
    have h37 : ('%').toNat = 37 := rfl
    have h95 : ('_').toNat = 95 := rfl
    constructor
    · intro hc
      rw [hc] at hval
      omega
    · intro hc
      rw [hc] at hval
      omega
  · exact ⟨h1, h2⟩

lemma noWildcard_lowerStr (t : PyStr) (h : noWildcard t) : noWildcard (lowerStr t) := by
  intro c hc
  rcases List.mem_map.mp hc with ⟨c0, hc0, rfl⟩
  exact toLower_ne_special c0 (h c0 hc0).1 (h c0 hc0).2

lemma likeMatch_nil_eval (s : PyStr) : likeMatch [] s = s.isEmpty := by
  rw [likeMatch.eq_def]

lemma likeMatch_cons_eval (c : Char) (p s : PyStr) :
    likeMatch (c :: p) s =
      (if c = '%' then
        likeMatch p s || (match s with
          | [] => false
          | _ :: s' => likeMatch (c :: p) s')
      else
        match s with
        | [] => false
        | d :: s' => if c = '_' then likeMatch p s' else (c == d && likeMatch p s')) := by
  conv_lhs => rw [likeMatch.eq_def]

lemma likeMatch_pct_all (s : PyStr) : likeMatch ['%'] s = true := by
  induction s with
  | nil =>
    rw [likeMatch_cons_eval, if_pos rfl, likeMatch_nil_eval]
    rfl
  | cons d s ih =>
    rw [likeMatch_cons_eval, if_pos rfl, likeMatch_nil_eval]
    simp [ih]

lemma likeMatch_lit_pct (p : PyStr) (hp : noWildcard p) :
    ∀ s, likeMatch (p ++ ['%']) s = true ↔ p <+: s := by
  induction p with
  | nil =>
    intro s
    simp [likeMatch_pct_all, List.nil_prefix]
  | cons c p ih =>
    intro s
    have hc := hp c (List.mem_cons_self c p)
    have hp' : noWildcard p := fun x hx => hp x (List.mem_cons_of_mem _ hx)
    cases s with
    | nil =>
      rw [show (c :: p) ++ ['%'] = c :: (p ++ ['%']) from rfl, likeMatch_cons_eval,
        if_neg hc.1]
      simp
    | cons d s =>
      rw [show (c :: p) ++ ['%'] = c :: (p ++ ['%']) from rfl, likeMatch_cons_eval,
        if_neg hc.1]
      show (if c = '_' then likeMatch (p ++ ['%']) s
            else (c == d && likeMatch (p ++ ['%']) s)) = true ↔ _
      rw [if_neg hc.2, List.cons_prefix_cons, ← ih hp' s]
      simp [Bool.and_eq_true, beq_iff_eq, and_comm]

lemma likeMatch_pct_iff (q : PyStr) :
    ∀ s, likeMatch ('%' :: q) s = true ↔ ∃ t, t <:+ s ∧ likeMatch q t = true := by
  intro s
  induction s with
  | nil =>
    rw [likeMatch_cons_eval, if_pos rfl]
    show (likeMatch q [] || false) = true ↔ _
    constructor
    · intro h
      refine ⟨[], List.suffix_refl [], ?_⟩
      simpa using h
    · rintro ⟨t, ht, hq⟩
      rw [List.suffix_nil.mp ht] at hq
      simpa using hq
  | cons d s ih =>
    rw [likeMatch_cons_eval, if_pos rfl]
    show (likeMatch q (d :: s) || likeMatch ('%' :: q) s) = true ↔ _
    constructor
    · intro h
      rcases Bool.or_eq_true _ _ ▸ h with h1 | h2
      · exact ⟨d :: s, List.suffix_refl _, h1⟩
      · rcases ih.mp h2 with ⟨t, ht, hq⟩
        exact ⟨t, ht.trans (List.suffix_cons d s), hq⟩
    · rintro ⟨t, ht, hq⟩
      rcases List.suffix_cons_iff.mp ht with rfl | ht'
      · simp [hq]
      · have := ih.mpr ⟨t, ht', hq⟩
        simp [this]

/-- For a wildcard-free term, `column ILIKE '%term%'` is exactly
case-insensitive substring containment. -/
lemma ilike_contains_iff (term s : PyStr) (h : noWildcard term) :
    ilike s ('%' :: (term ++ ['%'])) = true ↔ containsCI term s := by
  unfold ilike containsCI
  have hpat : lowerStr ('%' :: (term ++ ['%'])) = '%' :: (lowerStr term ++ ['%']) := by
    simp [lowerStr]
  rw [hpat, likeMatch_pct_iff]
  constructor
  · rintro ⟨t, ht, hq⟩
    have hpre := (likeMatch_lit_pct (lowerStr term) (noWildcard_lowerStr term h) t).mp hq
    exact List.infix_iff_prefix_suffix.mpr ⟨t, hpre, ht⟩
  · intro hinf
    rcases List.infix_iff_prefix_suffix.mp hinf with ⟨t, hpre, hsuf⟩
    exact ⟨t, hsuf,
      (likeMatch_lit_pct (lowerStr term) (noWildcard_lowerStr term h) t).mpr hpre⟩

lemma mem_searchFilter (db : DBState) (search : Option PyStr) (q : List Book) (b : Book)
    (hwfq : ∀ x ∈ q, ∃ a ∈ db.authors, a.id = x.author_id)
    (hnodup : (db.authors.map (fun a => a.id)).Nodup)
    (hs : ∀ t, search = some t → t ≠ [] ∧ noWildcard t) :
    b ∈ BookService.searchFilter db search q ↔
      b ∈ q ∧ (∀ t, search = some t →
        (containsCI t b.title ∨
          ∃ a, db.authors.find? (fun x => x.id == b.author_id) = some a ∧
            containsCI t a.name)) := by
  cases search with
  | none => simp [BookService.searchFilter]
  | some t =>
    obtain ⟨hne, hnw⟩ := hs t rfl
    have hpred : ∀ hb : b ∈ q,
        ((db.authors.any (fun a => a.id == b.author_id &&
          (ilike b.title ('%' :: (t ++ ['%'])) || ilike a.name ('%' :: (t ++ ['%']))))) = true
        ↔ (containsCI t b.title ∨
            ∃ a, db.authors.find? (fun x => x.id == b.author_id) = some a ∧
              containsCI t a.name)) := by
      intro hb
      constructor
      · intro hany
        rcases List.any_eq_true.mp hany with ⟨a, hamem, hcond⟩
        rw [Bool.and_eq_true] at hcond
        obtain ⟨haid, hor⟩ := hcond
        rcases Bool.or_eq_true _ _ ▸ hor with hti | hni
        · exact .inl ((ilike_contains_iff t b.title hnw).mp hti)
        · have hsome : ∃ a', db.authors.find? (fun x => x.id == b.author_id) = some a' := by
            rw [← Option.isSome_iff_exists, List.find?_isSome]
            exact ⟨a, hamem, haid⟩
          rcases hsome with ⟨a', hfind⟩
          have ha'id : a'.id = b.author_id := by simpa using List.find?_some hfind
          have haeq : a = a' :=
            List.inj_on_of_nodup_map hnodup hamem (List.mem_of_find?_eq_some hfind)
              (by rw [ha'id]; simpa using haid)
          exact .inr ⟨a', hfind, (ilike_contains_iff t a'.name hnw).mp (haeq ▸ hni)⟩
      · intro hcl
        rcases hcl with hti | ⟨a, hfind, hni⟩
        · rcases hwfq b hb with ⟨a0, ha0mem, ha0id⟩
          refine List.any_eq_true.mpr ⟨a0, ha0mem, ?_⟩
          rw [Bool.and_eq_true]
          refine ⟨by simpa using ha0id, ?_⟩
          have := (ilike_contains_iff t b.title hnw).mpr hti
          simp [this]
        · refine List.any_eq_true.mpr ⟨a, List.mem_of_find?_eq_some hfind, ?_⟩
          rw [Bool.and_eq_true]
          refine ⟨by simpa using List.find?_some hfind, ?_⟩
          have := (ilike_contains_iff t a.name hnw).mpr hni
          simp [this]
    simp only [BookService.searchFilter]
    rw [if_neg (by simpa [List.isEmpty_iff] using hne), List.mem_filter]
    constructor
    · rintro ⟨hq, hp⟩
      exact ⟨hq, fun t' ht' => by cases ht'; exact (hpred hq).mp hp⟩
    · rintro ⟨hq, hcl⟩
      exact ⟨hq, (hpred hq).mpr (hcl t rfl)⟩

lemma mem_categoryFilter (db : DBState) (category : Option PyStr) (q : List Book) (b : Book)
    (hc : ∀ t, category = some t → t ≠ [] ∧ noWildcard t) :
    b ∈ BookService.categoryFilter db category q ↔
      b ∈ q ∧ (∀ t, category = some t →
        ∃ c ∈ db.categories, (b.id, c.id) ∈ db.book_categories ∧ containsCI t c.name) := by
  cases category with
  | none => simp [BookService.categoryFilter]
  | some t =>
    obtain ⟨hne, hnw⟩ := hc t rfl
    have hpred :
        ((db.book_categories.any (fun bc => bc.1 == b.id &&
          db.categories.any (fun cat => cat.id == bc.2 &&
            ilike cat.name ('%' :: (t ++ ['%']))))) = true
        ↔ ∃ c ∈ db.categories, (b.id, c.id) ∈ db.book_categories ∧ containsCI t c.name) := by
      constructor
      · intro hany
        rcases List.any_eq_true.mp hany with ⟨bc, hbcmem, hcond⟩
        rw [Bool.and_eq_true] at hcond
        obtain ⟨hbid, hinner⟩ := hcond
        rcases List.any_eq_true.mp hinner with ⟨cat, hcatmem, hcond2⟩
        rw [Bool.and_eq_true] at hcond2
        obtain ⟨hcid, hname⟩ := hcond2
        refine ⟨cat, hcatmem, ?_, (ilike_contains_iff t cat.name hnw).mp hname⟩
        have : bc = (b.id, cat.id) := by
          ext
          · simpa using hbid
          · symm
            simpa using hcid
        rw [← this]
        exact hbcmem
      · rintro ⟨c, hcmem, hassoc, hname⟩
        refine List.any_eq_true.mpr ⟨(b.id, c.id), hassoc, ?_⟩
        rw [Bool.and_eq_true]
        refine ⟨by simp, List.any_eq_true.mpr ⟨c, hcmem, ?_⟩⟩
        rw [Bool.and_eq_true]
        exact ⟨by simp, (ilike_contains_iff t c.name hnw).mpr hname⟩
    simp only [BookService.categoryFilter]
    rw [if_neg (by simpa [List.isEmpty_iff] using hne), List.mem_filter]
    constructor
    · rintro ⟨hq, hp⟩
      exact ⟨hq, fun t' ht' => by cases ht'; exact hpred.mp hp⟩
    · rintro ⟨hq, hcl⟩
      exact ⟨hq, hpred.mpr (hcl t rfl)⟩

lemma mem_yearFilter (year : Option Int) (q : List Book) (b : Book)
    (hy : ∀ y, year = some y → y ≠ 0) :
    b ∈ BookService.yearFilter year q ↔
      b ∈ q ∧ (∀ y, year = some y → b.year = y) := by
  cases year with
  | none => simp [BookService.yearFilter]
  | some y =>
    simp only [BookService.yearFilter]
    rw [if_pos (hy y rfl), List.mem_filter]
    constructor
    · rintro ⟨hq, hp⟩
      exact ⟨hq, fun y' hy' => by cases hy'; simpa using hp⟩
    · rintro ⟨hq, hcl⟩
      exact ⟨hq, by simpa using hcl y rfl⟩

lemma mem_authorFilter (author_id : Option Int) (q : List Book) (b : Book)
    (ha : ∀ a, author_id = some a → a ≠ 0) :
    b ∈ BookService.authorFilter author_id q ↔
      b ∈ q ∧ (∀ a, author_id = some a → b.author_id = a) := by
  cases author_id with
  | none => simp [BookService.authorFilter]
  | some a =>
    simp only [BookService.authorFilter]
    rw [if_pos (ha a rfl), List.mem_filter]
    constructor
    · rintro ⟨hq, hp⟩
      exact ⟨hq, fun a' ha' => by cases ha'; simpa using hp⟩
    · rintro ⟨hq, hcl⟩
      exact ⟨hq, by simpa using hcl a rfl⟩

/-- C9 (amended).  Under a well-formed state (every book's `author_id`
references an author row, author ids distinct) and for supplied filter
values that are not Python-falsy (non-empty strings, non-zero integers) and
whose string terms contain no SQL LIKE wildcard, membership in
`_build_book_query`'s result is exactly the conjunction of the supplied
clauses of the spec: search as a case-insensitive substring of the title or
the owning author's name, category as a case-insensitive substring of some
associated category's name, year and author_id exact. -/
theorem build_book_query_conjunction (db : DBState) (search category : Option PyStr)
    (year author_id : Option Int)
    (hwf : ∀ x ∈ db.books, ∃ a ∈ db.authors, a.id = x.author_id)
    (hnodup : (db.authors.map (fun a => a.id)).Nodup)
    (hs : ∀ t, search = some t → t ≠ [] ∧ noWildcard t)
    (hc : ∀ t, category = some t → t ≠ [] ∧ noWildcard t)
    (hy : ∀ y, year = some y → y ≠ 0)
    (ha : ∀ a, author_id = some a → a ≠ 0) :
    ∀ b, b ∈ BookService.build_book_query db search category year author_id ↔
      (b ∈ db.books ∧ bookMatchesSpec db search category year author_id b) := by
  intro b
  unfold BookService.build_book_query bookMatchesSpec
  rw [mem_authorFilter author_id _ b ha, mem_yearFilter year _ b hy,
    mem_categoryFilter db category _ b hc, mem_searchFilter db search db.books b hwf hnodup hs]
  tauto

/-- The C9 counterexample state: one book "axyb" (year 2000) by author "zz". -/
def c9DB : DBState :=
  ⟨[⟨1, "axyb".data, "111".data, 2000, none, none, 1, 0, 0⟩],
   [⟨1, "zz".data, none, none, 0, 0⟩], [], []⟩

/-- C9 counterexample.  (a) A supplied `year = 0` filter is ignored (Python
truthiness): the stored book of year 2000 is returned although it fails the
spec's year clause.  (b) A search term containing the LIKE wildcard `%`
matches title "axyb" via the pattern although it is not a substring, so the
returned book fails the spec's substring clause. -/
theorem build_book_query_cex :
    (BookService.build_book_query c9DB none none (some 0) none =
        [⟨1, "axyb".data, "111".data, 2000, none, none, 1, 0, 0⟩]
      ∧ ¬ bookMatchesSpec c9DB none none (some 0) none
          ⟨1, "axyb".data, "111".data, 2000, none, none, 1, 0, 0⟩)
    ∧ (BookService.build_book_query c9DB (some "a%b".data) none none none =
        [⟨1, "axyb".data, "111".data, 2000, none, none, 1, 0, 0⟩]
      ∧ ¬ bookMatchesSpec c9DB (some "a%b".data) none none none
          ⟨1, "axyb".data, "111".data, 2000, none, none, 1, 0, 0⟩) := by
  refine ⟨⟨by decide, ?_⟩, ⟨?_, ?_⟩⟩
  · intro hm
    have := hm.2.2.1 0 rfl
    exact absurd this (by decide)
  · simp [BookService.build_book_query, BookService.searchFilter,
      BookService.categoryFilter, BookService.yearFilter, BookService.authorFilter,
      c9DB, ilike, lowerStr, likeMatch]
  · intro hm
    rcases hm.1 "a%b".data rfl with h | ⟨a, hfind, hcont⟩
    · exact absurd h (by decide)
    · rw [show (c9DB.authors.find? (fun x => x.id == (1 : Int))) =
          some ⟨1, "zz".data, none, none, 0, 0⟩ from by decide] at hfind
      cases hfind
      exact absurd hcont (by decide)

/-- The C9 witness state: one book by George Orwell. -/
def c9WDB : DBState :=
  ⟨[⟨1, "Nineteen Eighty-Four".data, "222".data, 1949, none, none, 1, 0, 0⟩],
   [⟨1, "George Orwell".data, none, none, 0, 0⟩], [], []⟩

/-- Witness for C9's amended theorem: search "orwell" returns the book whose
author name contains it case-insensitively. -/
theorem build_book_query_conjunction_witness :
    (⟨1, "Nineteen Eighty-Four".data, "222".data, 1949, none, none, 1, 0, 0⟩ : Book) ∈
      BookService.build_book_query c9WDB (some "orwell".data) none none none :=
  (build_book_query_conjunction c9WDB (some "orwell".data) none none none
    (by decide) (by decide)
    (fun t ht => by cases ht; exact (by decide))
    (fun t ht => Option.noConfusion ht)
    (fun y hy => Option.noConfusion hy)
    (fun a ha => Option.noConfusion ha)
    ⟨1, "Nineteen Eighty-Four".data, "222".data, 1949, none, none, 1, 0, 0⟩).mpr
    ⟨by decide,
     fun t ht => by
       cases ht
       exact .inr ⟨⟨1, "George Orwell".data, none, none, 0, 0⟩, by decide, by decide⟩,
     fun t ht => Option.noConfusion ht,
     fun y hy => Option.noConfusion hy,
     fun a ha => Option.noConfusion ha⟩

lemma setBook_authors (db : DBState) (b : Book) : (setBook db b).authors = db.authors := rfl

lemma setBook_categories (db : DBState) (b : Book) :
    (setBook db b).categories = db.categories := rfl

lemma setBook_book_categories (db : DBState) (b : Book) :
    (setBook db b).book_categories = db.book_categories := rfl

lemma setBook_setBook (db : DBState) (x y : Book) (h : x.id = y.id) :
    setBook (setBook db x) y = setBook db y := by
  simp only [setBook, List.map_map]
  congr 1
  apply List.map_congr_left
  intro z hz
  by_cases hzx : z.id = x.id
  · simp [Function.comp, hzx, h, hzx.trans h]
  · by_cases hzy : z.id = y.id
    · exact absurd (hzy.trans h.symm) hzx
    · simp [Function.comp, hzx, hzy]

lemma mem_setBook (db : DBState) (bnew : Book) (x : Book) (hx : x ∈ db.books)
    (hne : x.id ≠ bnew.id) : x ∈ (setBook db bnew).books := by
  unfold setBook
  exact List.mem_map.mpr ⟨x, hx, by simp [hne]⟩

lemma update_book_fields_rest_frame (db : DBState) (b : Book) (d : BookInput)
    (db' : DBState) (b' : Book)
    (h : BookService.update_book_fields_rest db b d = .ok (db', b')) :
    b'.id = b.id ∧ b'.title = b.title ∧ b'.isbn = b.isbn ∧
    b'.created_at = b.created_at ∧ b'.updated_at = b.updated_at ∧
    (d.year = none → b'.year = b.year) ∧
    (d.description = none → b'.description = b.description) ∧
    (d.pages = none → b'.pages = b.pages) ∧
    (d.author_id = none → b'.author_id = b.author_id) ∧
    db' = setBook db b' := by
  unfold BookService.update_book_fields_rest at h
  set b5 := BookService.pages_step
    (BookService.description_step (BookService.year_step b d) d) d with hb5
  have hf : b5.id = b.id ∧ b5.title = b.title ∧ b5.isbn = b.isbn ∧
      b5.created_at = b.created_at ∧ b5.updated_at = b.updated_at ∧
      (d.year = none → b5.year = b.year) ∧
      (d.description = none → b5.description = b.description) ∧
      (d.pages = none → b5.pages = b.pages) ∧
      b5.author_id = b.author_id := by
    rw [hb5]
    cases hY : d.year <;> cases hD : d.description <;> cases hP : d.pages <;>
      simp [BookService.year_step, BookService.description_step, BookService.pages_step,
        hY, hD, hP]
  obtain ⟨hf1, hf2, hf3, hf4, hf5, hf6, hf7, hf8, hf9⟩ := hf
  cases haid : d.author_id with
  | none =>
    simp only [haid] at h
    rw [Except.ok.injEq, Prod.mk.injEq] at h
    obtain ⟨hdb, hb⟩ := h
    subst hdb hb
    exact ⟨hf1, hf2, hf3, hf4, hf5, hf6, hf7, hf8, fun _ => hf9, rfl⟩
  | some aid =>
    simp only [haid] at h
    cases hver : BookService.verify_author_exists (setBook db b5) aid with
    | error e =>
      rw [hver] at h
      cases h
    | ok u =>
      rw [hver] at h
      rw [Except.ok.injEq, Prod.mk.injEq] at h
      obtain ⟨hdb, hb⟩ := h
      subst hdb hb
      exact ⟨hf1, hf2, hf3, hf4, hf5, hf6, hf7, hf8,
        fun hn => Option.noConfusion hn,
        setBook_setBook db b5 _ rfl⟩

lemma update_book_fields_frame (db : DBState) (book : Book) (d : BookInput)
    (db' : DBState) (b' : Book)
    (h : BookService.update_book_fields db book d = .ok (db', b')) :
    b'.id = book.id ∧ b'.created_at = book.created_at ∧ b'.updated_at = book.updated_at ∧
    (d.title = none → b'.title = book.title) ∧
    (d.isbn = none → b'.isbn = book.isbn) ∧
    (d.year = none → b'.year = book.year) ∧
    (d.description = none → b'.description = book.description) ∧
    (d.pages = none → b'.pages = book.pages) ∧
    (d.author_id = none → b'.author_id = book.author_id) ∧
    db' = setBook db b' := by
  unfold BookService.update_book_fields at h
  set b1 := BookService.title_step book d with hb1
  have ht : b1.id = book.id ∧ b1.isbn = book.isbn ∧ b1.year = book.year ∧
      b1.description = book.description ∧ b1.pages = book.pages ∧
      b1.author_id = book.author_id ∧ b1.created_at = book.created_at ∧
      b1.updated_at = book.updated_at ∧ (d.title = none → b1.title = book.title) := by
    rw [hb1]
    cases hT : d.title <;> simp [BookService.title_step, hT]
  obtain ⟨ht1, ht2, ht3, ht4, ht5, ht6, ht7, ht8, ht9⟩ := ht
  cases hi : d.isbn with
  | none =>
    simp only [hi] at h
    have hr := update_book_fields_rest_frame _ _ _ _ _ h
    obtain ⟨hr1, hr2, hr3, hr4, hr5, hr6, hr7, hr8, hr9, hr10⟩ := hr
    refine ⟨hr1.trans ht1, hr4.trans ht7, hr5.trans ht8,
      fun hT => (hr2.trans (ht9 hT)), fun _ => hr3.trans ht2,
      fun hy => (hr6 hy).trans ht3, fun hd => (hr7 hd).trans ht4,
      fun hp => (hr8 hp).trans ht5, fun ha => (hr9 ha).trans ht6, ?_⟩
    rw [hr10]
    exact setBook_setBook db b1 b' hr1.symm
  | some iv =>
    simp only [hi] at h
    have h2 : BookService.update_book_fields_rest (setBook db b1)
        { b1 with isbn := iv.getD [] } d = .ok (db', b') := by
      by_cases hcond : iv.getD [] ≠ b1.isbn
      · rw [if_pos hcond] at h
        cases hchk : BookService.check_duplicate_isbn (setBook db b1) (iv.getD [])
            (some book.id) with
        | error e => rw [hchk] at h; cases h
        | ok u => rw [hchk] at h; exact h
      · rw [if_neg hcond] at h
        exact h
    have hr := update_book_fields_rest_frame _ _ _ _ _ h2
    obtain ⟨hr1, hr2, hr3, hr4, hr5, hr6, hr7, hr8, hr9, hr10⟩ := hr
    refine ⟨hr1.trans ht1, hr4.trans ht7, hr5.trans ht8,
      fun hT => (hr2.trans (ht9 hT)), fun hn => Option.noConfusion hn,
      fun hy => (hr6 hy).trans ht3, fun hd => (hr7 hd).trans ht4,
      fun hp => (hr8 hp).trans ht5, fun ha => (hr9 ha).trans ht6, ?_⟩
    rw [hr10]
    exact setBook_setBook db b1 b' hr1.symm

lemma update_commit_frame (sp db1 dbX : DBState) (old bmid b : Book) (d : BookInput)
    (now : Int) (s' : Session)
    (hdb1 : db1 = setBook sp bmid)
    (hbooks : dbX.books = db1.books)
    (hauth : dbX.authors = db1.authors)
    (hcats : dbX.categories = db1.categories)
    (hmid_id : bmid.id = old.id)
    (hs' : s' = ⟨setBook dbX b, setBook dbX b⟩)
    (hb : b = (if BookService.scalarTouched d then { bmid with updated_at := now }
               else bmid)) :
    (BookService.scalarTouched d = true → b.updated_at = now) ∧
    (BookService.scalarTouched d = false → b.updated_at = bmid.updated_at) ∧
    b.id = bmid.id ∧ b.title = bmid.title ∧ b.isbn = bmid.isbn ∧ b.year = bmid.year ∧
    b.description = bmid.description ∧ b.pages = bmid.pages ∧
    b.author_id = bmid.author_id ∧ b.created_at = bmid.created_at ∧
    s'.pending.authors = sp.authors ∧ s'.pending.categories = sp.categories ∧
    s'.pending.book_categories = dbX.book_categories ∧
    (∀ x ∈ sp.books, x.id ≠ old.id → x ∈ s'.pending.books) := by
  have hbfields : (BookService.scalarTouched d = true → b.updated_at = now) ∧
      (BookService.scalarTouched d = false → b.updated_at = bmid.updated_at) ∧
      b.id = bmid.id ∧ b.title = bmid.title ∧ b.isbn = bmid.isbn ∧ b.year = bmid.year ∧
      b.description = bmid.description ∧ b.pages = bmid.pages ∧
      b.author_id = bmid.author_id ∧ b.created_at = bmid.created_at := by
    cases hst : BookService.scalarTouched d <;> rw [hst] at hb <;>
      simp only [if_true, if_false, Bool.false_eq_true] at hb <;> subst hb <;> simp
  obtain ⟨hb1, hb2, hb3, hb4, hb5, hb6, hb7, hb8, hb9, hb10⟩ := hbfields
  subst hs'
  refine ⟨hb1, hb2, hb3, hb4, hb5, hb6, hb7, hb8, hb9, hb10, ?_, ?_, rfl, ?_⟩
  · show (setBook dbX b).authors = sp.authors
    rw [setBook_authors, hauth, hdb1, setBook_authors]
  · show (setBook dbX b).categories = sp.categories
    rw [setBook_categories, hcats, hdb1, setBook_categories]
  · intro x hx hne
    show x ∈ (setBook dbX b).books
    unfold setBook
    simp only [hbooks, hdb1]
    refine List.mem_map.mpr ⟨x, ?_, ?_⟩
    · show x ∈ (setBook sp bmid).books
      exact mem_setBook sp bmid x hx (by rw [hmid_id]; exact hne)
    · rw [if_neg (by simp only [hb3, hmid_id]; simpa using hne)]

/-- C7 (amended).  A successful `update_book` changes only the supplied
fields, the association set when category_ids is supplied, and `updated_at`
(set to the mutation time whenever a scalar column is supplied, by the
model's `onupdate`): every unsupplied stored field, including `created_at`,
retains its prior value; other books, authors and categories are untouched;
and the association set is unchanged when category_ids is absent. -/
theorem update_book_frame (s : Session) (book_id : Int) (d : BookInput) (today now : Int)
    (old : Book) (s' : Session) (b : Book)
    (hold : BookService.get_book s.pending book_id = some old)
    (hupd : BookService.update_book s book_id d today now = (s', .ok b)) :
    b.id = old.id
    ∧ b.created_at = old.created_at
    ∧ (d.title = none → b.title = old.title)
    ∧ (d.isbn = none → b.isbn = old.isbn)
    ∧ (d.year = none → b.year = old.year)
    ∧ (d.description = none → b.description = old.description)
    ∧ (d.pages = none → b.pages = old.pages)
    ∧ (d.author_id = none → b.author_id = old.author_id)
    ∧ (BookService.scalarTouched d = true → b.updated_at = now)
    ∧ (BookService.scalarTouched d = false → b.updated_at = old.updated_at)
    ∧ (d.category_ids = none → s'.pending.book_categories = s.pending.book_categories)
    ∧ s'.pending.authors = s.pending.authors
    ∧ s'.pending.categories = s.pending.categories
    ∧ (∀ x ∈ s.pending.books, x.id ≠ old.id → x ∈ s'.pending.books) := by
  unfold BookService.update_book at hupd
  cases hv : BookValidator.validate_book_data d true today with
  | error e =>
    rw [hv] at hupd
    rw [Prod.mk.injEq] at hupd
    exact absurd hupd.2 (by simp)
  | ok u =>
    simp only [hv] at hupd
    simp only [hold] at hupd
    cases hf : BookService.update_book_fields s.pending old d with
    | error p =>
      obtain ⟨pdb, pe⟩ := p
      simp only [hf] at hupd
      rw [Prod.mk.injEq] at hupd
      exact absurd hupd.2 (by simp)
    | ok q =>
      obtain ⟨db1, bmid⟩ := q
      simp only [hf] at hupd
      have hframe := update_book_fields_frame s.pending old d db1 bmid hf
      obtain ⟨hfr1, hfr2, hfr3, hfr4, hfr5, hfr6, hfr7, hfr8, hfr9, hfr10⟩ := hframe
      cases hc : d.category_ids with
      | none =>
        simp only [hc] at hupd
        rw [Prod.mk.injEq, Except.ok.injEq] at hupd
        obtain ⟨hs'eq, hbeq⟩ := hupd
        rw [hbeq] at hs'eq
        have hcf := update_commit_frame s.pending db1 db1 old bmid b d now s'
          hfr10 rfl rfl rfl hfr1 hs'eq.symm hbeq.symm
        obtain ⟨hc1, hc2, hc3, hc4, hc5, hc6, hc7, hc8, hc9, hc10, hc11, hc12, hc13,
          hc14⟩ := hcf
        refine ⟨hc3.trans hfr1, hc10.trans hfr2, fun h => (hc4.trans (hfr4 h)),
          fun h => (hc5.trans (hfr5 h)), fun h => (hc6.trans (hfr6 h)),
          fun h => (hc7.trans (hfr7 h)), fun h => (hc8.trans (hfr8 h)),
          fun h => (hc9.trans (hfr9 h)), hc1,
          fun h => (hc2 h).trans hfr3, fun _ => ?_, hc11, hc12, hc14⟩
        rw [hc13, hfr10, setBook_book_categories]
      | some inner =>
        simp only [hc] at hupd
        cases inner with
        | none =>
          simp only at hupd
          rw [Prod.mk.injEq, Except.ok.injEq] at hupd
          obtain ⟨hs'eq, hbeq⟩ := hupd
          rw [hbeq] at hs'eq
          have hcf := update_commit_frame s.pending db1 (clearBookCats db1 book_id) old
            bmid b d now s' hfr10 rfl rfl rfl hfr1 hs'eq.symm hbeq.symm
          obtain ⟨hc1, hc2, hc3, hc4, hc5, hc6, hc7, hc8, hc9, hc10, hc11, hc12, hc13,
            hc14⟩ := hcf
          exact ⟨hc3.trans hfr1, hc10.trans hfr2, fun h => (hc4.trans (hfr4 h)),
            fun h => (hc5.trans (hfr5 h)), fun h => (hc6.trans (hfr6 h)),
            fun h => (hc7.trans (hfr7 h)), fun h => (hc8.trans (hfr8 h)),
            fun h => (hc9.trans (hfr9 h)), hc1,
            fun h => (hc2 h).trans hfr3, fun h => Option.noConfusion h, hc11, hc12, hc14⟩
        | some l =>
          cases hle : l.isEmpty with
          | true =>
            simp only [hle, if_true] at hupd
            rw [Prod.mk.injEq, Except.ok.injEq] at hupd
            obtain ⟨hs'eq, hbeq⟩ := hupd
            rw [hbeq] at hs'eq
            have hcf := update_commit_frame s.pending db1 (clearBookCats db1 book_id) old
              bmid b d now s' hfr10 rfl rfl rfl hfr1 hs'eq.symm hbeq.symm
            obtain ⟨hc1, hc2, hc3, hc4, hc5, hc6, hc7, hc8, hc9, hc10, hc11, hc12, hc13,
              hc14⟩ := hcf
            exact ⟨hc3.trans hfr1, hc10.trans hfr2, fun h => (hc4.trans (hfr4 h)),
              fun h => (hc5.trans (hfr5 h)), fun h => (hc6.trans (hfr6 h)),
              fun h => (hc7.trans (hfr7 h)), fun h => (hc8.trans (hfr8 h)),
              fun h => (hc9.trans (hfr9 h)), hc1,
              fun h => (hc2 h).trans hfr3, fun h => Option.noConfusion h, hc11, hc12,
              hc14⟩
          | false =>
            simp only [hle, Bool.false_eq_true, if_false] at hupd
            cases hadd : BookService.add_categories_to_book (clearBookCats db1 book_id)
                l with
            | error e =>
              rw [hadd] at hupd
              rw [Prod.mk.injEq] at hupd
              exact absurd hupd.2 (by simp)
            | ok cids =>
              rw [hadd] at hupd
              rw [Prod.mk.injEq, Except.ok.injEq] at hupd
              obtain ⟨hs'eq, hbeq⟩ := hupd
              rw [hbeq] at hs'eq
              have hcf := update_commit_frame s.pending db1
                ⟨(clearBookCats db1 book_id).books, (clearBookCats db1 book_id).authors,
                 (clearBookCats db1 book_id).categories,
                 (clearBookCats db1 book_id).book_categories ++
                   List.map (fun c => (book_id, c)) cids⟩ old
                bmid b d now s' hfr10 rfl rfl rfl hfr1 hs'eq.symm hbeq.symm
              obtain ⟨hc1, hc2, hc3, hc4, hc5, hc6, hc7, hc8, hc9, hc10, hc11, hc12,
                hc13, hc14⟩ := hcf
              exact ⟨hc3.trans hfr1, hc10.trans hfr2, fun h => (hc4.trans (hfr4 h)),
                fun h => (hc5.trans (hfr5 h)), fun h => (hc6.trans (hfr6 h)),
                fun h => (hc7.trans (hfr7 h)), fun h => (hc8.trans (hfr8 h)),
                fun h => (hc9.trans (hfr9 h)), hc1,
                fun h => (hc2 h).trans hfr3, fun h => Option.noConfusion h, hc11, hc12,
                hc14⟩

/-- The C7/C1 base state: one book (title "Old", updated_at 0). -/
def c7DB : DBState :=
  ⟨[⟨1, "Old".data, "1234567890".data, 2000, none, none, 1, 0, 0⟩],
   [⟨1, "Ann".data, none, none, 0, 0⟩], [], []⟩

/-- C7 counterexample.  A successful title-only update also changes the
stored `updated_at` (the model's `onupdate` timestamp): the claim's "every
other stored field retains its prior value" fails for `updated_at`. -/
theorem update_changes_updated_at_cex :
    (BookService.update_book ⟨c7DB, c7DB⟩ 1
        { title := some (some "New".data) } 2024 5).2 =
      .ok ⟨1, "New".data, "1234567890".data, 2000, none, none, 1, 0, 5⟩
    ∧ (BookService.get_book c7DB 1).map (fun bk => bk.updated_at) = some 0 := by
  refine ⟨by decide, by decide⟩

/-- Witness for C7's amended theorem on the concrete title-only update:
`created_at` and `isbn` (unsupplied) retain their prior values. -/
theorem update_book_frame_witness :
    (⟨1, "New".data, "1234567890".data, 2000, none, none, 1, 0, 5⟩ : Book).created_at =
      (⟨1, "Old".data, "1234567890".data, 2000, none, none, 1, 0, 0⟩ : Book).created_at
    ∧ (⟨1, "New".data, "1234567890".data, 2000, none, none, 1, 0, 5⟩ : Book).isbn =
      (⟨1, "Old".data, "1234567890".data, 2000, none, none, 1, 0, 0⟩ : Book).isbn :=
  ⟨(update_book_frame ⟨c7DB, c7DB⟩ 1 { title := some (some "New".data) } 2024 5
      ⟨1, "Old".data, "1234567890".data, 2000, none, none, 1, 0, 0⟩
      ⟨⟨[⟨1, "New".data, "1234567890".data, 2000, none, none, 1, 0, 5⟩],
         [⟨1, "Ann".data, none, none, 0, 0⟩], [], []⟩,
        ⟨[⟨1, "New".data, "1234567890".data, 2000, none, none, 1, 0, 5⟩],
         [⟨1, "Ann".data, none, none, 0, 0⟩], [], []⟩⟩
      ⟨1, "New".data, "1234567890".data, 2000, none, none, 1, 0, 5⟩ rfl rfl).2.1,
   (update_book_frame ⟨c7DB, c7DB⟩ 1 { title := some (some "New".data) } 2024 5
      ⟨1, "Old".data, "1234567890".data, 2000, none, none, 1, 0, 0⟩
      ⟨⟨[⟨1, "New".data, "1234567890".data, 2000, none, none, 1, 0, 5⟩],
         [⟨1, "Ann".data, none, none, 0, 0⟩], [], []⟩,
        ⟨[⟨1, "New".data, "1234567890".data, 2000, none, none, 1, 0, 5⟩],
         [⟨1, "Ann".data, none, none, 0, 0⟩], [], []⟩⟩
      ⟨1, "New".data, "1234567890".data, 2000, none, none, 1, 0, 5⟩ rfl rfl).2.2.2.1 rfl⟩

/-- The C1 state: one book (title "Old") associated to category 1. -/
def c1DB : DBState :=
  ⟨[⟨1, "Old".data, "1234567890".data, 2000, none, none, 1, 0, 0⟩],
   [⟨1, "Ann".data, none, none, 0, 0⟩], [⟨1, "Fiction".data, none, 0⟩], [(1, 1)]⟩

/-- C1.  `update_book` with a valid new title and a non-existent category id
raises the "Category IDs not found" validation error, but the session is not
rolled back: the raised `ValidationError` is not caught by the `except
IntegrityError` / `except SQLAlchemyError` clauses, so the pending state
keeps the already-applied title assignment and the cleared association set
(`book.categories = []`), while only the committed state is unchanged.  The
claim (and the spec's "leaving state unchanged on any failure") requires the
in-flight changes to be discarded; the code does not discard them. -/
theorem update_book_no_rollback_on_category_error :
    BookService.update_book ⟨c1DB, c1DB⟩ 1
        { title := some (some "New".data), category_ids := some (some [99]) } 2024 5 =
      (⟨c1DB,
        ⟨[⟨1, "New".data, "1234567890".data, 2000, none, none, 1, 0, 0⟩],
         [⟨1, "Ann".data, none, none, 0, 0⟩], [⟨1, "Fiction".data, none, 0⟩], []⟩⟩,
       .error (.validation ⟨"Category IDs not found: 99".data,
                            some "category_ids".data⟩))
    ∧ c1DB.books.map (fun bk => bk.title) = ["Old".data]
    ∧ c1DB.book_categories = [(1, 1)] := by
  refine ⟨by decide, by decide, rfl⟩
